import Mathlib

/-!
# Verification of the yo AI matching service core

Shallow embedding of the matching engine of this repository:

* `services/real_matching_engine.py` (`RealMatchingEngine`) — namespace `RealEngine`
* `services/ensemble_matcher.py` (adaptive weighting, ensemble combination,
  confidence calibration) — namespace `Ensemble`
* `production_matching_service.py` (`AdvancedAIMatchingEngine`) — namespace
  `ProductionService`

Python `dict` profiles are modelled as structures whose string fields default to
`""` for a missing key (the code reads every field with `.get(k, '')` or
`(.get(k) or '')`, so a missing key and an empty string are indistinguishable;
Python truthiness of a string is the test `≠ ""`).  Scores are modelled as `ℚ`
(the Python floats carry exact decimal constants in all code paths considered),
except the confidence calibrator which genuinely computes with `exp` and is
modelled over `ℝ`.  Strings are treated at ASCII level: the Unicode NFD
decomposition performed by `normalize_name` is the identity on ASCII input, and
`str.lower` is ASCII lowercasing.
-/

/-- ASCII lowercase of a character; models Python `str.lower` on ASCII text. -/
def lowerChar (c : Char) : Char :=
  if 'A' ≤ c ∧ c ≤ 'Z' then Char.ofNat (c.toNat + 32) else c

/-- Python `s.lower()` (ASCII model). -/
def sLower (s : String) : String := String.mk (s.toList.map lowerChar)

/-- One step of whitespace splitting, folded from the right. -/
def splitWsStep (c : Char) (acc : List (List Char)) : List (List Char) :=
  if c.isWhitespace then [] :: acc
  else
    match acc with
    | [] => [[c]]
    | w :: ws => (c :: w) :: ws

/-- Whitespace-separated words of a character list; empty words are dropped,
exactly as Python `str.split()` with no argument does. -/
def wordsOfChars (l : List Char) : List (List Char) :=
  (l.foldr splitWsStep []).filter (fun w => !w.isEmpty)

/-- Python `s.split()`: whitespace-separated non-empty words. -/
def wordsOf (s : String) : List String := (wordsOfChars s.toList).map String.mk

/-- Remove leading and trailing whitespace; models Python `str.strip`. -/
def trimChars (l : List Char) : List Char :=
  ((l.dropWhile Char.isWhitespace).reverse.dropWhile Char.isWhitespace).reverse

/-- Python `s.strip()`. -/
def sTrim (s : String) : String := String.mk (trimChars s.toList)

/-- Boolean prefix test on character lists. -/
def listIsPrefixOf : List Char → List Char → Bool
  | [], _ => true
  | _ :: _, [] => false
  | a :: as, b :: bs => a = b && listIsPrefixOf as bs

/-- Python `pat in s` (substring containment). -/
def strContains (s pat : String) : Bool :=
  let ls := s.toList
  let lp := pat.toList
  (List.range (ls.length + 1)).any (fun i => listIsPrefixOf lp (ls.drop i))

/-!
## difflib.SequenceMatcher ratio

The fuzzy string comparisons call `difflib.SequenceMatcher(None, a, b).ratio()`.
We model the Ratcliff/Obershelp computation exactly for the short strings the
engine compares (`autojunk` only affects sequences of length ≥ 200 and is
therefore immaterial): the total size of the matching blocks is found by taking
a longest matching block — earliest in `a`, then earliest in `b`, exactly
`find_longest_match`'s tie-break — and recursing on the pieces to its left and
to its right.  The recursion is fuelled; each recursive call strictly decreases
`a.length + b.length` by at least 2, so fuel `a.length + b.length + 1` is more
than enough and the fuelled function equals the true recursion.
-/

/-- Length of the longest common prefix. -/
def lcpLen : List Char → List Char → Nat
  | a :: as, b :: bs => if a = b then lcpLen as bs + 1 else 0
  | _, _ => 0

/-- All index pairs `(i, j)` with `i < n`, `j < m`, ordered `i`-major ascending,
the scan order of `find_longest_match`. -/
def allIndexPairs (n m : Nat) : List (Nat × Nat) :=
  (List.range n).flatMap (fun i => (List.range m).map (fun j => (i, j)))

/-- `find_longest_match` over whole lists: the longest matching block as
`(i, j, size)`, tie-broken by earliest start in `a`, then earliest start in
`b`. -/
def longestMatch (a b : List Char) : Nat × Nat × Nat :=
  (allIndexPairs (a.length + 1) (b.length + 1)).foldl
    (fun best ij =>
      let k := lcpLen (a.drop ij.1) (b.drop ij.2)
      if best.2.2 < k then (ij.1, ij.2, k) else best)
    (0, 0, 0)

/-- Total size of all matching blocks (`get_matching_blocks`), fuelled. -/
def matchesTotalFuel : Nat → List Char → List Char → Nat
  | 0, _, _ => 0
  | fuel + 1, a, b =>
    let m := longestMatch a b
    if m.2.2 = 0 then 0
    else
      matchesTotalFuel fuel (a.take m.1) (b.take m.2.1) + m.2.2 +
        matchesTotalFuel fuel (a.drop (m.1 + m.2.2)) (b.drop (m.2.1 + m.2.2))

/-- `difflib.SequenceMatcher(None, s1, s2).ratio()`:
`2·M / (len s1 + len s2)`, and `1.0` when both strings are empty. -/
def sequenceMatcherRatio (s1 s2 : String) : ℚ :=
  let a := s1.toList
  let b := s2.toList
  let total := a.length + b.length
  if total = 0 then 1
  else (2 * (matchesTotalFuel (total + 1) a b) : ℚ) / (total : ℚ)

/-- A calendar date, as the `(year, month, day)` triple the Python code reads
off `datetime.date` values.  `today` is always passed explicitly where the code
calls `date.today()` / `datetime.now()`. -/
structure SimpleDate where
  year : Int
  month : Int
  day : Int
deriving DecidableEq

/-- A user document, the fields of the Mongo `users` dict that the matching
code reads.  Missing keys are `""` / `[]` / `none`, matching the `.get`
defaults.  `created_at` timestamps are modelled at day granularity (the code
only ever uses the difference in days). -/
structure UserProfile where
  id : String
  first_name : String
  last_name : String
  father_name : String
  mother_name : String
  gender : String
  location : String
  profession : String
  interests : List String
  date_of_birth : Option SimpleDate
  created_at : Option Int
  primary_school : String
  secondary_school : String
  high_school : String
  university : String
  college : String
deriving DecidableEq

/-- A profile with every data field missing. -/
def blankUser (i : String) : UserProfile :=
  ⟨i, "", "", "", "", "", "", "", [], none, none, "", "", "", "", ""⟩

namespace RealEngine

/-! Embedding of `services/real_matching_engine.py` (`RealMatchingEngine`). -/

/-- `normalize_name` (lines 305–321): NFD-decompose and drop combining marks
(identity on ASCII), lowercase, drop characters outside `[^\w\s]`, collapse
whitespace. -/
def normalize_name (name : String) : String :=
  if name = "" then ""
  else
    let kept := (name.toList.map lowerChar).filter
      (fun c => c.isAlphanum || c == '_' || c.isWhitespace)
    String.intercalate " " ((wordsOfChars kept).map String.mk)

/-- The words removed by `normalize_location`'s regex
`\b(city|town|village|area|district)\b`. -/
def locationStopWords : List String := ["city", "town", "village", "area", "district"]

/-- `normalize_location` (lines 323–334): lowercase, strip, remove the five
stop words, collapse whitespace.  The `\b`-bounded regex removal followed by
`' '.join(location.split())` acts on whitespace-separated alphanumeric tokens
exactly as: drop every token equal to a stop word. -/
def normalize_location (location : String) : String :=
  if location = "" then ""
  else
    let lowered := trimChars (location.toList.map lowerChar)
    let kept := ((wordsOfChars lowered).map String.mk).filter
      (fun w => !(locationStopWords.contains w))
    String.intercalate " " kept

/-- The Arabic-name pattern list of `analyze_cultural_names`. -/
def arabicPatterns : List String :=
  ["ahmed", "mohammad", "hassan", "omar", "ali", "fatima", "aisha", "zahra"]

/-- `f"{first_name} {last_name}".lower()` as built in
`analyze_cultural_names`. -/
def fullNameLower (u : UserProfile) : String :=
  sLower (u.first_name ++ " " ++ u.last_name)

/-- Whether any Arabic name pattern occurs in the string. -/
def hasArabicPattern (s : String) : Bool :=
  arabicPatterns.any (fun p => strContains s p)

/-- `analyze_cultural_names` (lines 336–350). -/
def analyze_cultural_names (u1 u2 : UserProfile) : ℚ :=
  if hasArabicPattern (fullNameLower u1) && hasArabicPattern (fullNameLower u2)
  then 0.6 else 0

/-- Last-name contribution of `calculate_name_similarity` (lines 53–63). -/
def nameLastScore (u1 u2 : UserProfile) : ℚ :=
  let l1 := normalize_name u1.last_name
  let l2 := normalize_name u2.last_name
  if l1 ≠ "" ∧ l2 ≠ "" ∧ l1 = l2 then 0.8
  else if l1 ≠ "" ∧ l2 ≠ "" then
    (if 0.8 < sequenceMatcherRatio l1 l2 then 0.6 * sequenceMatcherRatio l1 l2 else 0)
  else 0

/-- First-name contribution of `calculate_name_similarity` (lines 65–70). -/
def nameFirstScore (u1 u2 : UserProfile) : ℚ :=
  let f1 := normalize_name u1.first_name
  let f2 := normalize_name u2.first_name
  if f1 ≠ "" ∧ f2 ≠ "" ∧ 0.7 < sequenceMatcherRatio f1 f2 then
    0.3 * sequenceMatcherRatio f1 f2
  else 0

/-- Cultural contribution of `calculate_name_similarity` (lines 72–76). -/
def nameCultScore (u1 u2 : UserProfile) : ℚ :=
  if 0 < analyze_cultural_names u1 u2 then analyze_cultural_names u1 u2 * 0.4 else 0

/-- Reasons accumulated by `calculate_name_similarity`, in append order. -/
def nameReasons (u1 u2 : UserProfile) : List String :=
  let l1 := normalize_name u1.last_name
  let l2 := normalize_name u2.last_name
  let f1 := normalize_name u1.first_name
  let f2 := normalize_name u2.first_name
  (if l1 ≠ "" ∧ l2 ≠ "" ∧ l1 = l2 then ["Same last name: " ++ l1]
   else if l1 ≠ "" ∧ l2 ≠ "" ∧ 0.8 < sequenceMatcherRatio l1 l2 then
     ["Similar last name: " ++ l1 ++ " / " ++ l2]
   else []) ++
  (if f1 ≠ "" ∧ f2 ≠ "" ∧ 0.7 < sequenceMatcherRatio f1 f2 then
     ["Similar first name: " ++ f1 ++ " / " ++ f2]
   else []) ++
  (if 0 < analyze_cultural_names u1 u2 then ["Similar cultural naming patterns"] else [])

/-- `calculate_name_similarity` (lines 42–78): additive contributions clamped
by `min(score, 1.0)`. -/
def calculate_name_similarity (u1 u2 : UserProfile) : ℚ × List String :=
  (min (nameLastScore u1 u2 + nameFirstScore u1 u2 + nameCultScore u1 u2) 1,
   nameReasons u1 u2)

/-- `same_region` (lines 357–362): shared word between the two normalized
locations. -/
def sameRegion (l1 l2 : String) : Bool :=
  (wordsOf l1).any (fun w => (wordsOf l2).contains w)

/-- `calculate_location_proximity` (lines 80–109). -/
def calculate_location_proximity (u1 u2 : UserProfile) : ℚ × List String :=
  if u1.location = "" ∨ u2.location = "" then (0, [])
  else
    let n1 := normalize_location u1.location
    let n2 := normalize_location u2.location
    if n1 = n2 then (0.9, ["Same location: " ++ u1.location])
    else if 0.6 < sequenceMatcherRatio n1 n2 then
      (0.6, ["Nearby locations: " ++ u1.location ++ " / " ++ u2.location])
    else if sameRegion n1 n2 then
      (0.3, ["Same region: " ++ u1.location ++ " / " ++ u2.location])
    else (0, [])

/-- `extract_age` (lines 386–405): calendar years, minus one if today's
month/day precedes the birth month/day. -/
def extract_age (today : SimpleDate) (u : UserProfile) : Option Int :=
  match u.date_of_birth with
  | none => none
  | some b =>
    some (today.year - b.year -
      (if today.month < b.month ∨ (today.month = b.month ∧ today.day < b.day)
       then 1 else 0))

/-- Python truthiness of an optional integer age: `None` and `0` are falsy. -/
def truthyAge : Option Int → Bool
  | none => false
  | some a => a != 0

/-- `calculate_age_proximity` (lines 364–384). -/
def calculate_age_proximity (today : SimpleDate) (u1 u2 : UserProfile) : ℚ :=
  let a1 := extract_age today u1
  let a2 := extract_age today u2
  if !truthyAge a1 || !truthyAge a2 then 0
  else
    let d := (a1.getD 0 - a2.getD 0).natAbs
    if d ≤ 2 then 1
    else if d ≤ 5 then 0.8
    else if d ≤ 10 then 0.6
    else if d ≤ 20 then 0.3
    else 0.1

/-- `calculate_gender_compatibility` (lines 407–421): neutral `0.5` when either
gender is unknown, `0.7` for same gender, else `0.5`. -/
def calculate_gender_compatibility (u1 u2 : UserProfile) : ℚ :=
  let g1 := sLower u1.gender
  let g2 := sLower u2.gender
  if g1 = "" ∨ g2 = "" then 0.5
  else if g1 = g2 then 0.7 else 0.5

/-- `calculate_professional_match` (lines 423–436). -/
def calculate_professional_match (u1 u2 : UserProfile) : ℚ :=
  let p1 := sLower u1.profession
  let p2 := sLower u2.profession
  if p1 = "" ∨ p2 = "" then 0 else sequenceMatcherRatio p1 p2

/-- Age contribution of `calculate_demographic_match` (lines 116–121). -/
def demoAgePart (today : SimpleDate) (u1 u2 : UserProfile) : ℚ :=
  if 0 < calculate_age_proximity today u1 u2
  then calculate_age_proximity today u1 u2 * 0.5 else 0

/-- Profession contribution of `calculate_demographic_match` (lines 127–132). -/
def demoProfPart (u1 u2 : UserProfile) : ℚ :=
  if 0 < calculate_professional_match u1 u2
  then calculate_professional_match u1 u2 * 0.2 else 0

/-- Reasons of `calculate_demographic_match`. -/
def demoReasons (today : SimpleDate) (u1 u2 : UserProfile) : List String :=
  (if 0 < calculate_age_proximity today u1 u2 ∧ 0.7 < calculate_age_proximity today u1 u2
   then ["Similar age group"] else []) ++
  (if 0 < calculate_professional_match u1 u2 ∧ 0.7 < calculate_professional_match u1 u2
   then ["Similar profession"] else [])

/-- `calculate_demographic_match` (lines 111–134): age 50% (gated on a positive
age score), gender 30% (always added), profession 20% (gated), clamped to 1. -/
def calculate_demographic_match (today : SimpleDate) (u1 u2 : UserProfile) :
    ℚ × List String :=
  (min (demoAgePart today u1 u2 + calculate_gender_compatibility u1 u2 * 0.3 +
        demoProfPart u1 u2) 1,
   demoReasons today u1 u2)

/-- `extract_interests` preprocessing: each entry stripped then lowercased
(list input branch of lines 438–449). -/
def interestsList (u : UserProfile) : List String :=
  u.interests.map (fun s => sLower (sTrim s))

/-- The interest set built by `extract_interests`. -/
def extract_interests (u : UserProfile) : Finset String := (interestsList u).toFinset

/-- `calculate_interests_overlap` (lines 136–159): Jaccard similarity, `0` if
either set is empty.  Python iterates the intersection set in an unspecified
order for the reason string; we use first-occurrence order in `u1`'s list. -/
def calculate_interests_overlap (u1 u2 : UserProfile) : ℚ × List String :=
  let i1 := extract_interests u1
  let i2 := extract_interests u2
  if i1 = ∅ ∨ i2 = ∅ then (0, [])
  else if i1 ∪ i2 = ∅ then (0, [])
  else
    (((i1 ∩ i2).card : ℚ) / ((i1 ∪ i2).card : ℚ),
     if i1 ∩ i2 ≠ ∅ then
       ["Common interests: " ++
         String.intercalate ", "
           (((interestsList u1).dedup.filter (fun s => decide (s ∈ i2))).take 3)]
     else [])

/-- `calculate_temporal_proximity` (lines 161–191); `created_at` timestamps are
day counts, `time_diff` their absolute difference. -/
def calculate_temporal_proximity (u1 u2 : UserProfile) : ℚ × List String :=
  match u1.created_at, u2.created_at with
  | some c1, some c2 =>
    let d := (c1 - c2).natAbs
    if d ≤ 7 then (0.8, ["Joined around the same time"])
    else if d ≤ 30 then (0.5, [])
    else if d ≤ 90 then (0.2, [])
    else (0, [])
  | _, _ => (0, [])

/-- `predict_relationship_type` (lines 193–303): a pure decision table keyed on
the match context, then on name score, age difference, location and profession
flags.  Returns `(match_type, predicted_relationship, confidence)`. -/
def predict_relationship_type (today : SimpleDate) (u1 u2 : UserProfile)
    (overall_score name_score : ℚ) (match_context : String) :
    String × String × ℚ :=
  let a1 := extract_age today u1
  let a2 := extract_age today u2
  let bothAges := truthyAge a1 && truthyAge a2
  let age_diff : Nat := if bothAges then (a1.getD 0 - a2.getD 0).natAbs else 0
  let loc1 := sLower u1.location
  let loc2 := sLower u2.location
  let prof1 := sLower u1.profession
  let prof2 := sLower u2.profession
  let same_location :=
    loc1 ≠ "" ∧ loc2 ≠ "" ∧ (strContains loc2 loc1 = true ∨ strContains loc1 loc2 = true)
  let same_profession := prof1 ≠ "" ∧ prof2 ≠ "" ∧ prof1 = prof2
  if match_context = "family" then
    if 0.6 < name_score then
      if age_diff ≤ 3 then ("family", "possible twin", 0.9)
      else if age_diff ≤ 8 then ("family", "possible sibling", 0.85)
      else if age_diff ≤ 15 then ("family", "possible cousin", 0.8)
      else if age_diff ≤ 25 then
        (if bothAges = true ∧ a2.getD 0 < a1.getD 0
         then ("family", "possible uncle/aunt", 0.8)
         else ("family", "possible nephew/niece", 0.8))
      else if age_diff ≤ 40 then
        (if bothAges = true ∧ a2.getD 0 < a1.getD 0
         then ("family", "possible parent", 0.85)
         else ("family", "possible child", 0.85))
      else ("family", "possible grandparent/grandchild", 0.75)
    else if 0.2 < name_score ∨ same_location then
      if age_diff ≤ 5 then ("family", "possible sibling", 0.75)
      else if age_diff ≤ 15 then ("family", "possible cousin", 0.7)
      else if age_diff ≤ 30 then ("family", "possible uncle/aunt or nephew/niece", 0.7)
      else ("family", "possible distant relative", 0.65)
    else
      if age_diff ≤ 10 then ("family", "possible distant cousin", 0.6)
      else if age_diff ≤ 25 then ("family", "possible distant relative", 0.55)
      else ("family", "possible extended family", 0.5)
  else if match_context = "friend" then
    if same_profession ∧ age_diff ≤ 10 then ("friend", "possible colleague", 0.8)
    else if same_location then
      if age_diff ≤ 5 then ("friend", "possible childhood friend", 0.8)
      else if age_diff ≤ 15 then ("friend", "possible classmate", 0.75)
      else ("friend", "possible neighbor", 0.7)
    else if 0.3 < name_score then
      if age_diff ≤ 5 then ("friend", "possible old friend", 0.75)
      else if age_diff ≤ 15 then ("friend", "possible school friend", 0.7)
      else ("friend", "possible acquaintance", 0.65)
    else if same_profession then ("friend", "possible work colleague", 0.7)
    else if 0.3 < overall_score then
      if age_diff ≤ 5 then ("friend", "possible close friend", 0.7)
      else if age_diff ≤ 15 then ("friend", "possible old friend", 0.65)
      else ("friend", "possible acquaintance", 0.6)
    else ("friend", "possible social connection", 0.55)
  else if match_context = "community" then
    if same_location ∧ same_profession then ("community", "possible local professional", 0.75)
    else if same_location then
      if age_diff ≤ 10 then ("community", "possible neighbor", 0.7)
      else ("community", "possible local resident", 0.65)
    else if same_profession then ("community", "possible industry peer", 0.7)
    else if 0.3 < overall_score then ("community", "possible community member", 0.6)
    else ("community", "possible connection", 0.5)
  else
    if 0.7 < name_score then ("family", "possible relative", 0.8)
    else if 0.6 < overall_score then ("friend", "possible friend", 0.7)
    else ("community", "possible connection", 0.5)

/-- Round-half-to-even on integers, the tie-breaking mode of Python `round`. -/
def roundHalfEven (q : ℚ) : Int :=
  let f := ⌊q⌋
  let r := q - (f : ℚ)
  if r < 1/2 then f
  else if 1/2 < r then f + 1
  else if f % 2 = 0 then f else f + 1

/-- Python `round(q, 3)`. -/
def round3 (q : ℚ) : ℚ := (roundHalfEven (q * 1000) : ℚ) / 1000

/-- The `algorithm_scores` sub-dict of a match result. -/
structure AlgorithmScoresR where
  name_similarity : ℚ
  location_proximity : ℚ
  demographic_match : ℚ
  interests_overlap : ℚ
  temporal_proximity : ℚ
deriving DecidableEq

/-- The match dict returned by `calculate_match_with_context`
(lines 518–533). -/
structure MatchDict where
  user_id : String
  confidence_score : ℚ
  confidence_level : String
  match_type : String
  algorithm_scores : AlgorithmScoresR
  match_reasons : List String
  predicted_relationship : String
  relationship_confidence : ℚ
deriving DecidableEq

/-- The weighted overall score of `calculate_match_with_context`
(lines 493–500), with the engine's weight dict
`{name: 0.35, location: 0.25, demographic: 0.20, interests: 0.15,
temporal: 0.05}`. -/
def overall_score (today : SimpleDate) (u1 u2 : UserProfile) : ℚ :=
  (calculate_name_similarity u1 u2).1 * 0.35 +
  (calculate_location_proximity u1 u2).1 * 0.25 +
  (calculate_demographic_match today u1 u2).1 * 0.20 +
  (calculate_interests_overlap u1 u2).1 * 0.15 +
  (calculate_temporal_proximity u1 u2).1 * 0.05

/-- `calculate_match_with_context` (lines 483–533). -/
def calculate_match_with_context (today : SimpleDate) (u1 u2 : UserProfile)
    (match_context : String) : MatchDict :=
  let ns := calculate_name_similarity u1 u2
  let ls := calculate_location_proximity u1 u2
  let ds := calculate_demographic_match today u1 u2
  let js := calculate_interests_overlap u1 u2
  let ts := calculate_temporal_proximity u1 u2
  let ov := overall_score today u1 u2
  let pred := predict_relationship_type today u1 u2 ov ns.1 match_context
  ⟨u2.id,
   round3 ov,
   (if 0.8 ≤ ov then "high" else if 0.6 ≤ ov then "medium" else "low"),
   pred.1,
   ⟨round3 ns.1, round3 ls.1, round3 ds.1, round3 js.1, round3 ts.1⟩,
   (ns.2 ++ ls.2 ++ ds.2 ++ js.2 ++ ts.2).take 5,
   pred.2.1,
   round3 pred.2.2⟩

/-- The target-user lookup of `find_matches` (lines 456–461): each pool entry
whose id equals the target id overwrites `target_user`, so the last one wins. -/
def target_of (target_user_id : String) (all_users : List UserProfile) :
    Option UserProfile :=
  (all_users.filter (fun u => u.id == target_user_id)).getLast?

/-- The per-candidate evaluation and confidence filter of `find_matches`
(lines 467–472). -/
def filtered_matches (today : SimpleDate) (target_user_id : String)
    (all_users : List UserProfile) (min_confidence : ℚ) (match_context : String) :
    List MatchDict :=
  match target_of target_user_id all_users with
  | none => []
  | some t =>
    ((all_users.filter (fun u => !(u.id == target_user_id))).map
        (fun c => calculate_match_with_context today t c match_context)).filter
      (fun m => decide (min_confidence ≤ m.confidence_score))

/-- The descending-by-confidence ordering used by
`matches.sort(key=lambda x: x['confidence_score'], reverse=True)`. -/
def matchSortRel (a b : MatchDict) : Prop := b.confidence_score ≤ a.confidence_score

instance : DecidableRel matchSortRel :=
  fun a b => inferInstanceAs (Decidable (b.confidence_score ≤ a.confidence_score))

instance : IsTotal MatchDict matchSortRel :=
  ⟨fun a b => le_total b.confidence_score a.confidence_score⟩

instance : IsTrans MatchDict matchSortRel :=
  ⟨fun _ _ _ h1 h2 => le_trans h2 h1⟩

/-- Python `list.sort(key=confidence, reverse=True)`: a stable descending sort.
Insertion sort with the non-strict relation `matchSortRel` is sorted and keeps
equal-confidence elements in input order; since a stable sort's output is
uniquely determined by those two properties, this is extensionally Timsort's
result. -/
def pySortDesc (l : List MatchDict) : List MatchDict :=
  List.insertionSort matchSortRel l

/-- `find_matches` (lines 451–477): split the pool on the target id; when the
target is absent, log and return `[]`; otherwise evaluate every candidate,
keep confidence ≥ `min_confidence`, sort descending by confidence (stable) and
truncate to `max_results`. -/
def find_matches (today : SimpleDate) (target_user_id : String)
    (all_users : List UserProfile) (max_results : Nat) (min_confidence : ℚ)
    (match_context : String) : List MatchDict :=
  match target_of target_user_id all_users with
  | none => []
  | some _ =>
    (pySortDesc
        (filtered_matches today target_user_id all_users min_confidence match_context)).take
      max_results

end RealEngine

namespace Ensemble

/-! Embedding of `services/ensemble_matcher.py`. -/

/-- `AlgorithmWeight` (lines 33–48). -/
structure AlgorithmWeight where
  tensorflow : ℚ
  nlp : ℚ
  graph : ℚ
  genetic : ℚ
deriving DecidableEq

/-- `AlgorithmWeight.normalize` (lines 41–48): divide by the total when it is
positive, otherwise leave the weights unchanged. -/
def AlgorithmWeight.normalize (w : AlgorithmWeight) : AlgorithmWeight :=
  let total := w.tensorflow + w.nlp + w.graph + w.genetic
  if 0 < total then
    ⟨w.tensorflow / total, w.nlp / total, w.graph / total, w.genetic / total⟩
  else w

/-- The base weights of `AlgorithmWeight`'s field defaults. -/
def baseWeights : AlgorithmWeight := ⟨0.35, 0.25, 0.25, 0.15⟩

/-- The user-profile dict consumed by `AdaptiveWeightingSystem`; string fields
are `""` when missing, and DNA presence is reduced to flags (the code only
tests truthiness of `dna_data` / `genetic_markers`). -/
structure EnsembleProfile where
  first_name : String
  last_name : String
  location : String
  birth_date : String
  profession : String
  cultural_background : String
  family_origin : String
  connections : List String
  dna_data : Bool
  genetic_markers : Bool
deriving DecidableEq

/-- `_calculate_profile_completeness` (lines 114–122): fraction of the seven
required fields present. -/
def profile_completeness (p : EnsembleProfile) : ℚ :=
  (((if p.first_name ≠ "" then 1 else 0) +
    (if p.last_name ≠ "" then 1 else 0) +
    (if p.location ≠ "" then 1 else 0) +
    (if p.birth_date ≠ "" then 1 else 0) +
    (if p.profession ≠ "" then 1 else 0) +
    (if p.cultural_background ≠ "" then 1 else 0) +
    (if p.family_origin ≠ "" then 1 else 0) : ℚ)) / 7

/-- Python `str.isalpha` (ASCII model): non-empty and all alphabetic. -/
def strIsAlpha (s : String) : Bool :=
  !(s == "") && s.toList.all (fun c => c.isAlpha)

/-- `_assess_name_location_quality` (lines 124–145). -/
def name_location_quality (p : EnsembleProfile) : ℚ :=
  min
    ((if p.first_name ≠ "" ∧ 1 < p.first_name.length ∧ strIsAlpha p.first_name = true
      then 0.3 else 0) +
     (if p.last_name ≠ "" ∧ 1 < p.last_name.length ∧ strIsAlpha p.last_name = true
      then 0.3 else 0) +
     (if p.location ≠ "" ∧ 3 < p.location.length then
        0.2 + (if strContains p.location "," = true then 0.2 else 0)
      else 0))
    1

/-- TensorFlow multiplier of `calculate_weights` (lines 86–90). -/
def tfFactor (p : EnsembleProfile) : ℚ :=
  if 0.8 < profile_completeness p then 1.3
  else if profile_completeness p < 0.3 then 0.7
  else 1

/-- NLP multiplier of `calculate_weights` (lines 92–97). -/
def nlpFactor (p : EnsembleProfile) : ℚ :=
  if 0.8 < name_location_quality p then 1.4
  else if name_location_quality p < 0.3 then 0.6
  else 1

/-- Graph multiplier of `calculate_weights` (lines 99–103). -/
def graphFactor (p : EnsembleProfile) : ℚ :=
  if p.connections ≠ [] then 1.3 else 0.8

/-- Genetic multiplier of `calculate_weights` (lines 105–109). -/
def geneticFactor (p : EnsembleProfile) : ℚ :=
  if p.dna_data = true ∨ p.genetic_markers = true then 1.5 else 0.5

/-- The multiplicatively adjusted weights before renormalization. -/
def adjusted_weights (p : EnsembleProfile) : AlgorithmWeight :=
  ⟨0.35 * tfFactor p, 0.25 * nlpFactor p, 0.25 * graphFactor p, 0.15 * geneticFactor p⟩

/-- `AdaptiveWeightingSystem.calculate_weights` (lines 74–112). -/
def calculate_weights (p : EnsembleProfile) : AlgorithmWeight :=
  (adjusted_weights p).normalize

/-- The `weight_dict.get(alg_name, 0)` lookup of `_combine_algorithm_results`
(lines 382–387 and 415). -/
def weight_of (w : AlgorithmWeight) (name : String) : ℚ :=
  if name = "tensorflow" then w.tensorflow
  else if name = "nlp" then w.nlp
  else if name = "graph" then w.graph
  else if name = "genetic" then w.genetic
  else 0

/-- The weighted-average combination of `_combine_algorithm_results`
(lines 409–429) for one candidate's `algorithm_scores` dict, modelled as an
association list of `(algorithm, confidence)`: `Σ score·weight / Σ weight`,
and no ensemble entry at all when the total weight is not positive. -/
def ensemble_score (algorithm_scores : List (String × ℚ)) (w : AlgorithmWeight) :
    Option ℚ :=
  let total_weight := (algorithm_scores.map (fun p => weight_of w p.1)).sum
  let total_weighted := (algorithm_scores.map (fun p => p.2 * weight_of w p.1)).sum
  if 0 < total_weight then some (total_weighted / total_weight) else none

/-- `ConfidenceCalibrator.calibrate_score`'s reliability lookup
(lines 160–167): the dict holds only the four component algorithms, every
other name — including the `"ensemble"` the engine passes in
`_calibrate_matches` — falls to the default `0.80`. -/
noncomputable def calibration_factor (algorithm : String) : ℝ :=
  if algorithm = "tensorflow" then 0.95
  else if algorithm = "nlp" then 0.85
  else if algorithm = "graph" then 0.90
  else if algorithm = "genetic" then 0.98
  else 0.80

/-- `ConfidenceCalibrator.calibrate_score` (lines 157–171): multiply by the
reliability factor, then squash with `1 / (1 + e^(-2(x - 0.5)))`. -/
noncomputable def calibrate_score (raw_score : ℝ) (algorithm : String) : ℝ :=
  1 / (1 + Real.exp (-2 * (raw_score * calibration_factor algorithm - 0.5)))

/-- The calibration the specification describes for the ensemble level:
reliability constant `0.90`, then the same logistic squash.  Stated from the
spec's words for comparison with `calibrate_score` (refinement check). -/
noncomputable def claimed_ensemble_calibration (raw_score : ℝ) : ℝ :=
  1 / (1 + Real.exp (-2 * (0.90 * raw_score - 0.5)))

open Classical in
/-- `_determine_match_type` (lines 493–500). -/
noncomputable def determine_match_type (confidence : ℝ) : String :=
  if 0.80 ≤ confidence then "family"
  else if 0.60 ≤ confidence then "friend"
  else "community"

end Ensemble

namespace ProductionService

/-! Embedding of `production_matching_service.py`
(`AdvancedAIMatchingEngine`). -/

/-- `normalize_name` (lines 503–507): strip, lowercase, remove `[^\w\s]`.
Unlike the real engine's version, internal whitespace is not collapsed. -/
def normalize_name (name : String) : String :=
  if name = "" then ""
  else
    String.mk (((trimChars name.toList).map lowerChar).filter
      (fun c => c.isAlphanum || c == '_' || c.isWhitespace))

/-- The result dict of `analyze_family_relationship`. -/
structure FamResult where
  score : ℚ
  reasons : List String
  relationship : Option String
deriving DecidableEq

/-- `calculate_age` (lines 542–556): same year arithmetic as the real
engine's `extract_age`, with the month/day tuple comparison. -/
def calculate_age (today : SimpleDate) (dob : Option SimpleDate) : Option Int :=
  match dob with
  | none => none
  | some b =>
    some (today.year - b.year -
      (if today.month < b.month ∨ (today.month = b.month ∧ today.day < b.day)
       then 1 else 0))

/-- `get_life_stage` (lines 558–571). -/
def get_life_stage (age : Int) : String :=
  if age < 18 then "teenage"
  else if age < 25 then "young_adult"
  else if age < 35 then "early_career"
  else if age < 45 then "established"
  else if age < 60 then "mature"
  else "senior"

/-- `analyze_family_relationship` (lines 264–320).  Control flow notes, kept
faithful: the mother-match `if` owns the `elif father-match` arm, so a
father-only match leaves `relationship = "paternal half-sibling"`; the
parent/child block then overrides the relationship when it fires. -/
def analyze_family_relationship (u1 u2 : UserProfile) : FamResult :=
  let father1 := normalize_name u1.father_name
  let father2 := normalize_name u2.father_name
  let mother1 := normalize_name u1.mother_name
  let mother2 := normalize_name u2.mother_name
  let fatherMatch := father1 ≠ "" ∧ father2 ≠ "" ∧ father1 = father2
  let motherMatch := mother1 ≠ "" ∧ mother2 ≠ "" ∧ mother1 = mother2
  let siblingRel : Option String :=
    if motherMatch then (if fatherMatch then some "full sibling" else some "maternal sibling")
    else if fatherMatch then some "paternal half-sibling"
    else none
  let full1 := normalize_name (u1.first_name ++ " " ++ u1.last_name)
  let full2 := normalize_name (u2.first_name ++ " " ++ u2.last_name)
  let parentCase := full1 ≠ "" ∧ (full1 = father2 ∨ full1 = mother2)
  let childCase := full2 ≠ "" ∧ (full2 = father1 ∨ full2 = mother1)
  let relationship : Option String :=
    if parentCase then some "parent"
    else if childCase then some "child"
    else siblingRel
  let last1 := normalize_name u1.last_name
  let last2 := normalize_name u2.last_name
  let lastMatch := last1 ≠ "" ∧ last2 ≠ "" ∧ last1 = last2
  let score :=
    (if fatherMatch then 0.5 else 0) + (if motherMatch then 0.5 else 0) +
    (if parentCase ∨ childCase then (0.8 : ℚ) else 0) +
    (if lastMatch then 0.2 else 0)
  let reasons :=
    (if fatherMatch then ["Same father: " ++ u1.father_name] else []) ++
    (if motherMatch then ["Same mother: " ++ u1.mother_name] else []) ++
    (if parentCase ∨ childCase then ["Potential parent-child relationship"] else []) ++
    (if lastMatch then ["Same family name: " ++ u1.last_name] else [])
  ⟨min score 1, reasons, relationship⟩

/-- The `city`/`country` components produced by `parse_location`
(lines 509–518); the `region` component is never read. -/
structure LocParts where
  city : String
  country : Option String
deriving DecidableEq

/-- Split a character list on a separator character (Python `str.split(',')`:
the empty string yields one empty part). -/
def splitOnChar (sep : Char) : List Char → List (List Char)
  | [] => [[]]
  | c :: cs =>
    let rest := splitOnChar sep cs
    if c = sep then [] :: rest
    else
      match rest with
      | [] => [[c]]
      | w :: ws => (c :: w) :: ws

/-- `parse_location` (lines 509–518): comma-separated parts, each stripped. -/
def parse_location (location : String) : LocParts :=
  let parts := (splitOnChar ',' location.toList).map (fun p => String.mk (trimChars p))
  if 2 ≤ parts.length then ⟨parts.headD "", some (parts.getLastD "")⟩
  else ⟨location, none⟩

/-- `analyze_location_similarity` (lines 322–363). -/
def analyze_location_similarity (u1 u2 : UserProfile) : ℚ × List String :=
  let loc1 := sTrim u1.location
  let loc2 := sTrim u2.location
  if loc1 = "" ∨ loc2 = "" then (0, [])
  else if sLower loc1 = sLower loc2 then (1, ["Same location: " ++ loc1])
  else
    let p1 := parse_location loc1
    let p2 := parse_location loc2
    let cityMatch := p1.city ≠ "" ∧ p2.city ≠ "" ∧ sLower p1.city = sLower p2.city
    -- `loc_parts.get("country")` is falsy when the key is `None` or `""`.
    let c1 := p1.country.getD ""
    let c2 := p2.country.getD ""
    let countryMatch := c1 ≠ "" ∧ c2 ≠ "" ∧ sLower c1 = sLower c2
    let base := (if cityMatch then (0.7 : ℚ) else 0) + (if countryMatch then 0.3 else 0)
    let r := sequenceMatcherRatio (sLower loc1) (sLower loc2)
    let score := if 0.6 < r then max base (r * 0.8) else base
    (min score 1,
     (if cityMatch then ["Same city: " ++ p1.city] else []) ++
     (if countryMatch then ["Same country: " ++ p1.country.getD ""] else []) ++
     (if 0.6 < r then ["Similar location areas"] else []))

/-- The industry keyword table of `classify_industry` (lines 520–540), in
declaration order. -/
def industryTable : List (String × List String) :=
  [("technology", ["engineer", "developer", "programmer", "software", "tech", "it", "data", "ai"]),
   ("healthcare", ["doctor", "nurse", "physician", "medical", "healthcare", "hospital"]),
   ("education", ["teacher", "professor", "educator", "academic", "school"]),
   ("finance", ["banker", "finance", "accounting", "economist", "investment"]),
   ("business", ["manager", "executive", "entrepreneur", "business", "sales", "marketing"]),
   ("creative", ["artist", "designer", "writer", "musician", "creative", "media"]),
   ("service", ["consultant", "advisor", "service", "support", "customer"]),
   ("legal", ["lawyer", "attorney", "legal", "judge", "law"]),
   ("transportation", ["pilot", "driver", "transportation", "logistics", "aviation"])]

/-- `classify_industry` (lines 520–540): the first industry one of whose
keywords occurs in the lowercased profession. -/
def classify_industry (profession : String) : Option String :=
  let p := sLower profession
  (industryTable.find? (fun e => e.2.any (fun k => strContains p k))).map (fun e => e.1)

/-- `analyze_profession_similarity` (lines 365–398). -/
def analyze_profession_similarity (u1 u2 : UserProfile) : ℚ × List String :=
  let prof1 := sTrim u1.profession
  let prof2 := sTrim u2.profession
  if prof1 = "" ∨ prof2 = "" then (0, [])
  else if sLower prof1 = sLower prof2 then (1, ["Same profession: " ++ prof1])
  else
    let i1 := classify_industry prof1
    let i2 := classify_industry prof2
    let indMatch := i1 ≠ none ∧ i2 ≠ none ∧ i1 = i2
    let base := if indMatch then (0.6 : ℚ) else 0
    let r := sequenceMatcherRatio (sLower prof1) (sLower prof2)
    let score := if 0.5 < r then max base (r * 0.7) else base
    (min score 1,
     (if indMatch then ["Same industry: " ++ i1.getD ""] else []) ++
     (if 0.5 < r then ["Related profession"] else []))

/-- `analyze_age_compatibility` (lines 400–438); note that the falsy test
`if not age1 or not age2` also rejects an age of exactly `0`. -/
def analyze_age_compatibility (today : SimpleDate) (u1 u2 : UserProfile) :
    ℚ × List String :=
  let a1 := calculate_age today u1.date_of_birth
  let a2 := calculate_age today u2.date_of_birth
  if !RealEngine.truthyAge a1 || !RealEngine.truthyAge a2 then (0, [])
  else
    let v1 := a1.getD 0
    let v2 := a2.getD 0
    let d := (v1 - v2).natAbs
    let base : ℚ × List String :=
      if d ≤ 3 then (1, ["Very close in age"])
      else if d ≤ 7 then (0.8, ["Similar age group"])
      else if d ≤ 15 then (0.5, ["Compatible age range"])
      else if d ≤ 25 then (0.2, ["Different generations but compatible"])
      else (0, [])
    let stageMatch := get_life_stage v1 = get_life_stage v2
    (min (base.1 + (if stageMatch then 0.2 else 0)) 1,
     base.2 ++ (if stageMatch then ["Same life stage: " ++ get_life_stage v1] else []))

/-- `analyze_name_cultural_patterns` (lines 573–577): literally returns 0. -/
def analyze_name_cultural_patterns (_u1 _u2 : UserProfile) : ℚ := 0

/-- `analyze_name_similarity` (lines 440–474).  The matching-last-name bonus
adds `0.4` with no reason (the comment defers it to the family analysis). -/
def analyze_name_similarity (u1 u2 : UserProfile) : ℚ × List String :=
  let f1 := normalize_name u1.first_name
  let f2 := normalize_name u2.first_name
  let l1 := normalize_name u1.last_name
  let l2 := normalize_name u2.last_name
  let firstPart : ℚ × List String :=
    if f1 ≠ "" ∧ f2 ≠ "" then
      (if 0.8 < sequenceMatcherRatio f1 f2 then (0.3, ["Very similar first names"])
       else if 0.6 < sequenceMatcherRatio f1 f2 then (0.2, ["Similar first names"])
       else (0, []))
    else (0, [])
  let lastPart : ℚ := if l1 ≠ "" ∧ l2 ≠ "" ∧ l1 = l2 then 0.4 else 0
  let cult := analyze_name_cultural_patterns u1 u2
  let cultPart : ℚ × List String :=
    if 0 < cult then (cult * 0.3, ["Similar cultural naming patterns"]) else (0, [])
  (min (firstPart.1 + lastPart + cultPart.1) 1, firstPart.2 ++ cultPart.2)

/-- `infer_language_from_name` (lines 579–592). -/
def infer_language_from_name (u : UserProfile) : Option String :=
  let name := sLower (u.first_name ++ " " ++ u.last_name)
  if ["muhammad", "ahmed", "ali", "hassan", "omar"].any (fun p => strContains name p)
  then some "Arabic"
  else if ["chen", "wang", "li", "zhang", "liu"].any (fun p => strContains name p)
  then some "Chinese"
  else if ["kumar", "sharma", "patel", "singh", "gupta"].any (fun p => strContains name p)
  then some "Indian"
  else none

/-- `infer_cultural_region` (lines 594–607). -/
def infer_cultural_region (u : UserProfile) : Option String :=
  let location := sLower u.location
  if ["uae", "dubai", "abu dhabi", "saudi", "qatar"].any (fun c => strContains location c)
  then some "Middle East"
  else if ["india", "pakistan", "bangladesh"].any (fun c => strContains location c)
  then some "South Asia"
  else if ["china", "japan", "korea", "singapore"].any (fun c => strContains location c)
  then some "East Asia"
  else if ["france", "germany", "italy", "spain", "uk"].any (fun c => strContains location c)
  then some "Europe"
  else none

/-- `analyze_cultural_similarity` (lines 476–500). -/
def analyze_cultural_similarity (u1 u2 : UserProfile) : ℚ × List String :=
  let lang1 := infer_language_from_name u1
  let lang2 := infer_language_from_name u2
  let langMatch := lang1 ≠ none ∧ lang2 ≠ none ∧ lang1 = lang2
  let region1 := infer_cultural_region u1
  let region2 := infer_cultural_region u2
  let regionMatch := region1 ≠ none ∧ region2 ≠ none ∧ region1 = region2
  (min ((if langMatch then (0.5 : ℚ) else 0) + (if regionMatch then 0.3 else 0)) 1,
   (if langMatch then ["Similar cultural background: " ++ lang1.getD ""] else []) ++
   (if regionMatch then ["Same cultural region: " ++ region1.getD ""] else []))

/-- The per-algorithm scores dict of `calculate_comprehensive_similarity`. -/
structure CompScores where
  family : ℚ
  location : ℚ
  profession : ℚ
  age : ℚ
  name : ℚ
  cultural : ℚ
deriving DecidableEq

/-- One label lookup of the reason scan inside `predict_friend_relationship`
(lines 650–660), keywords checked in source order. -/
def reasonLabel (r : String) : Option String :=
  let rl := sLower r
  if strContains rl "school" then some "old classmate"
  else if strContains rl "childhood" || strContains rl "grew up" then some "childhood friend"
  else if strContains rl "neighbor" then some "old neighbor"
  else if strContains rl "profession" || strContains rl "work" then some "professional connection"
  else none

/-- First reason with a recognized keyword, in list order. -/
def firstReasonLabel : List String → Option String
  | [] => none
  | r :: rs =>
    match reasonLabel r with
    | some l => some l
    | none => firstReasonLabel rs

/-- `predict_friend_relationship` (lines 609–670). -/
def predict_friend_relationship (today : SimpleDate) (u1 u2 : UserProfile)
    (algorithm_scores : CompScores) (reasons : List String) : String :=
  let edu1p := sLower u1.primary_school
  let edu2p := sLower u2.primary_school
  let edu1s := if u1.secondary_school ≠ "" then u1.secondary_school else u1.high_school
  let edu2s := if u2.secondary_school ≠ "" then u2.secondary_school else u2.high_school
  let edu1u := if u1.university ≠ "" then u1.university else u1.college
  let edu2u := if u2.university ≠ "" then u2.university else u2.college
  if edu1p ≠ "" ∧ edu2p ≠ "" ∧ edu1p = edu2p then "primary school classmate"
  else if edu1s ≠ "" ∧ edu2s ≠ "" ∧ sLower edu1s = sLower edu2s then "high school classmate"
  else if edu1u ≠ "" ∧ edu2u ≠ "" ∧ sLower edu1u = sLower edu2u then "university classmate"
  else
    let a1 := calculate_age today u1.date_of_birth
    let a2 := calculate_age today u2.date_of_birth
    let v1 := a1.getD 0
    let v2 := a2.getD 0
    let bothAges := RealEngine.truthyAge a1 && RealEngine.truthyAge a2
    if bothAges = true ∧ (v1 - v2).natAbs ≤ 5 ∧ 0.7 < algorithm_scores.location then
      (if v1 < 25 ∨ v2 < 25 then "childhood friend" else "old neighborhood friend")
    else if sLower u1.profession ≠ "" ∧ sLower u2.profession ≠ "" ∧
            0.6 < algorithm_scores.profession then "colleague"
    else
      match firstReasonLabel reasons with
      | some l => l
      | none =>
        if bothAges = true then
          (if (v1 - v2).natAbs ≤ 3 then "peer friend"
           else if (v1 - v2).natAbs ≤ 10 then "friend"
           else "possible friend")
        else "possible friend"

/-- The result dict of `calculate_comprehensive_similarity`. -/
structure CompResult where
  total_score : ℚ
  match_type : String
  reasons : List String
  algorithm_scores : CompScores
  predicted_relationship : Option String
deriving DecidableEq

/-- The six per-analyzer scores feeding `calculate_comprehensive_similarity`. -/
def comp_scores (today : SimpleDate) (u1 u2 : UserProfile) : CompScores :=
  ⟨(analyze_family_relationship u1 u2).score,
   (analyze_location_similarity u1 u2).1,
   (analyze_profession_similarity u1 u2).1,
   (analyze_age_compatibility today u1 u2).1,
   (analyze_name_similarity u1 u2).1,
   (analyze_cultural_similarity u1 u2).1⟩

/-- The weighted total of `calculate_comprehensive_similarity` (each term only
added when the analyzer's score is positive), before the final `min(·, 1)`. -/
def comp_total (today : SimpleDate) (u1 u2 : UserProfile) : ℚ :=
  let s := comp_scores today u1 u2
  (if 0 < s.family then s.family * 0.4 else 0) +
  (if 0 < s.location then s.location * 0.2 else 0) +
  (if 0 < s.profession then s.profession * 0.15 else 0) +
  (if 0 < s.age then s.age * 0.1 else 0) +
  (if 0 < s.name then s.name * 0.1 else 0) +
  (if 0 < s.cultural then s.cultural * 0.05 else 0)

/-- The reason list accumulated by `calculate_comprehensive_similarity` before
the empty-list default is applied: each analyzer's reasons, in analyzer order,
included only when that analyzer's score is positive. -/
def comprehensiveReasonsRaw (today : SimpleDate) (u1 u2 : UserProfile) : List String :=
  let s := comp_scores today u1 u2
  (if 0 < s.family then (analyze_family_relationship u1 u2).reasons else []) ++
  (if 0 < s.location then (analyze_location_similarity u1 u2).2 else []) ++
  (if 0 < s.profession then (analyze_profession_similarity u1 u2).2 else []) ++
  (if 0 < s.age then (analyze_age_compatibility today u1 u2).2 else []) ++
  (if 0 < s.name then (analyze_name_similarity u1 u2).2 else []) ++
  (if 0 < s.cultural then (analyze_cultural_similarity u1 u2).2 else [])

/-- `calculate_comprehensive_similarity` (lines 184–262). -/
def calculate_comprehensive_similarity (today : SimpleDate) (u1 u2 : UserProfile) :
    CompResult :=
  let s := comp_scores today u1 u2
  let fam := analyze_family_relationship u1 u2
  let total := comp_total today u1 u2
  let reasons0 := comprehensiveReasonsRaw today u1 u2
  -- `match_type`/`predicted_relationship` before the final override block:
  -- family only when the family analyzer fired with a relationship.
  let predicted0 : Option String := if 0 < fam.score then fam.relationship else none
  let matchType0 : String :=
    if 0 < fam.score ∧ fam.relationship ≠ none then "family" else "community"
  let matchType : String :=
    if 0.3 < s.family then "family"
    else if 0.3 < total then "friend"
    else if 0.2 < total then "community"
    else matchType0
  let predicted : Option String :=
    if 0.3 < s.family then predicted0
    else if 0.3 < total then
      (match predicted0 with
       | some r => some r
       | none => some (predict_friend_relationship today u1 u2 s reasons0))
    else predicted0
  ⟨min total 1,
   matchType,
   (if reasons0 = [] then ["Profile compatibility"] else reasons0),
   s,
   predicted⟩

end ProductionService

/-! ## General lemmas about the embedded code -/

namespace ProductionService

/-- The family-heuristic sub-score lies in `[0, 1]`. -/
theorem family_relationship_unit (u1 u2 : UserProfile) :
    0 ≤ (analyze_family_relationship u1 u2).score ∧
      (analyze_family_relationship u1 u2).score ≤ 1 := by
  unfold analyze_family_relationship
  dsimp only
  refine ⟨le_min ?_ zero_le_one, min_le_right _ _⟩
  split_ifs <;> norm_num

end ProductionService

namespace Ensemble

theorem weight_of_nonneg (w : AlgorithmWeight) (name : String)
    (hw : 0 ≤ w.tensorflow ∧ 0 ≤ w.nlp ∧ 0 ≤ w.graph ∧ 0 ≤ w.genetic) :
    0 ≤ weight_of w name := by
  unfold weight_of
  split_ifs <;> first
    | exact hw.1
    | exact hw.2.1
    | exact hw.2.2.1
    | exact hw.2.2.2
    | exact le_refl 0

/-- The weighted average `Σ score·weight / Σ weight` of
`_combine_algorithm_results` lies in `[0, 1]` whenever the incoming algorithm
confidences do and the weights are nonnegative. -/
theorem ensemble_score_unit (scores : List (String × ℚ)) (w : AlgorithmWeight)
    (hs : ∀ p ∈ scores, 0 ≤ p.2 ∧ p.2 ≤ 1)
    (hw : 0 ≤ w.tensorflow ∧ 0 ≤ w.nlp ∧ 0 ≤ w.graph ∧ 0 ≤ w.genetic)
    (q : ℚ) (hq : ensemble_score scores w = some q) : 0 ≤ q ∧ q ≤ 1 := by
  unfold ensemble_score at hq
  dsimp only at hq
  split_ifs at hq with htw
  · have hq2 : (scores.map (fun p => p.2 * weight_of w p.1)).sum /
        (scores.map (fun p => weight_of w p.1)).sum = q := by
      exact Option.some.inj hq
    have hnum : 0 ≤ (scores.map (fun p => p.2 * weight_of w p.1)).sum := by
      apply List.sum_nonneg
      intro x hx
      obtain ⟨p, hp, rfl⟩ := List.mem_map.mp hx
      exact mul_nonneg (hs p hp).1 (weight_of_nonneg w p.1 hw)
    have hle : (scores.map (fun p => p.2 * weight_of w p.1)).sum ≤
        (scores.map (fun p => weight_of w p.1)).sum := by
      apply List.sum_le_sum
      intro p hp
      exact mul_le_of_le_one_left (weight_of_nonneg w p.1 hw) (hs p hp).2
    rw [← hq2]
    exact ⟨div_nonneg hnum htw.le, (div_le_one htw).mpr hle⟩

theorem tfFactor_pos (p : EnsembleProfile) : 0 < tfFactor p := by
  unfold tfFactor
  split_ifs <;> norm_num

theorem nlpFactor_pos (p : EnsembleProfile) : 0 < nlpFactor p := by
  unfold nlpFactor
  split_ifs <;> norm_num

theorem graphFactor_pos (p : EnsembleProfile) : 0 < graphFactor p := by
  unfold graphFactor
  split_ifs <;> norm_num

theorem geneticFactor_pos (p : EnsembleProfile) : 0 < geneticFactor p := by
  unfold geneticFactor
  split_ifs <;> norm_num

theorem adjusted_weights_pos (p : EnsembleProfile) :
    0 < (adjusted_weights p).tensorflow ∧ 0 < (adjusted_weights p).nlp ∧
      0 < (adjusted_weights p).graph ∧ 0 < (adjusted_weights p).genetic :=
  ⟨mul_pos (by norm_num) (tfFactor_pos p), mul_pos (by norm_num) (nlpFactor_pos p),
   mul_pos (by norm_num) (graphFactor_pos p), mul_pos (by norm_num) (geneticFactor_pos p)⟩

/-- `AlgorithmWeight.normalize` of strictly positive weights yields strictly
positive weights summing to exactly `1`. -/
theorem normalize_of_pos (w : AlgorithmWeight)
    (hw : 0 < w.tensorflow ∧ 0 < w.nlp ∧ 0 < w.graph ∧ 0 < w.genetic) :
    (w.normalize.tensorflow + w.normalize.nlp + w.normalize.graph + w.normalize.genetic = 1) ∧
      0 < w.normalize.tensorflow ∧ 0 < w.normalize.nlp ∧ 0 < w.normalize.graph ∧
        0 < w.normalize.genetic := by
  obtain ⟨h1, h2, h3, h4⟩ := hw
  have ht : 0 < w.tensorflow + w.nlp + w.graph + w.genetic := by linarith
  unfold AlgorithmWeight.normalize
  dsimp only
  rw [if_pos ht]
  dsimp only
  refine ⟨?_, div_pos h1 ht, div_pos h2 ht, div_pos h3 ht, div_pos h4 ht⟩
  rw [div_add_div_same, div_add_div_same, div_add_div_same]
  exact div_self (ne_of_gt ht)

end Ensemble

namespace RealEngine

/-! ### Stable sort lemmas

Lemmas about `pySortDesc`, the model of Python's stable descending sort. -/

/-- `orderedInsert` with the descending relation places the inserted element
in front of every element of equal confidence, so filtering on one confidence
value prepends it when it matches and changes nothing otherwise. -/
theorem orderedInsert_filter_key (c : ℚ) (a : MatchDict) (l : List MatchDict) :
    (List.orderedInsert matchSortRel a l).filter
        (fun m => decide (m.confidence_score = c)) =
      if a.confidence_score = c then
        a :: l.filter (fun m => decide (m.confidence_score = c))
      else l.filter (fun m => decide (m.confidence_score = c)) := by
  induction l with
  | nil =>
    simp only [List.orderedInsert, List.filter_cons, List.filter_nil]
    split_ifs with h <;> simp_all
  | cons b t ih =>
    rw [List.orderedInsert]
    by_cases hab : matchSortRel a b
    · rw [if_pos hab]
      by_cases hac : a.confidence_score = c
      · rw [if_pos hac]
        simp [List.filter_cons, hac]
      · rw [if_neg hac]
        simp [List.filter_cons, hac]
    · rw [if_neg hab]
      have hba : a.confidence_score < b.confidence_score := lt_of_not_le hab
      by_cases hac : a.confidence_score = c
      · -- `b` has strictly larger confidence than `a = c`, so it cannot match.
        have hbc : ¬ b.confidence_score = c := by
          intro h
          rw [h, hac] at hba
          exact lt_irrefl c hba
        rw [if_pos hac]
        rw [List.filter_cons_of_neg (by simpa using hbc), ih, if_pos hac,
          List.filter_cons_of_neg (by simpa using hbc)]
      · rw [if_neg hac]
        rw [List.filter_cons, ih, if_neg hac, List.filter_cons]

/-- Stability of `pySortDesc`: the elements of any fixed confidence keep their
input order.  This is the formal content of Python `list.sort` stability. -/
theorem pySortDesc_filter_key (c : ℚ) (l : List MatchDict) :
    (pySortDesc l).filter (fun m => decide (m.confidence_score = c)) =
      l.filter (fun m => decide (m.confidence_score = c)) := by
  induction l with
  | nil => rfl
  | cons a t ih =>
    rw [pySortDesc, List.insertionSort]
    rw [show List.insertionSort matchSortRel t = pySortDesc t from rfl]
    rw [orderedInsert_filter_key, List.filter_cons]
    by_cases hac : a.confidence_score = c
    · rw [if_pos hac, ih, if_pos (by simpa using hac)]
    · rw [if_neg hac, ih, if_neg (by simpa using hac)]

/-- `pySortDesc` permutes its input. -/
theorem pySortDesc_perm (l : List MatchDict) : (pySortDesc l).Perm l :=
  List.perm_insertionSort matchSortRel l

/-- `pySortDesc` sorts descending by confidence. -/
theorem pySortDesc_sorted (l : List MatchDict) :
    (pySortDesc l).Pairwise matchSortRel :=
  List.sorted_insertionSort matchSortRel l

end RealEngine

namespace Ensemble

/-- The reliability dict has no `"ensemble"` key: the lookup falls through to
the default `0.80`. -/
theorem calibration_factor_ensemble : calibration_factor "ensemble" = 0.80 := by
  unfold calibration_factor
  rw [if_neg (by decide), if_neg (by decide), if_neg (by decide), if_neg (by decide)]

theorem exp_point_six_lt_four : Real.exp 0.6 < 4 := by
  have h1 : Real.exp 0.6 ≤ Real.exp 1 := Real.exp_le_exp.mpr (by norm_num)
  have h2 : Real.exp 1 < 2.7182818286 := Real.exp_one_lt_d9
  linarith

theorem exp_neg_point_six_gt : (0.25 : ℝ) < Real.exp (-0.6) := by
  rw [Real.exp_neg]
  have h4 : (4 : ℝ)⁻¹ < (Real.exp 0.6)⁻¹ :=
    inv_strictAnti₀ (Real.exp_pos 0.6) exp_point_six_lt_four
  have : (0.25 : ℝ) = (4 : ℝ)⁻¹ := by norm_num
  linarith

/-- For every raw score at most `1`, the ensemble-level calibrated confidence
is strictly below `0.8`: the factor is `0.80`, so the logistic argument is at
most `0.3` and the output at most `1/(1+e^{-0.6}) < 0.8`. -/
theorem calibrate_score_ensemble_lt (r : ℝ) (h1 : r ≤ 1) :
    calibrate_score r "ensemble" < 0.8 := by
  unfold calibrate_score
  rw [calibration_factor_ensemble]
  have hx : (-0.6 : ℝ) ≤ -2 * (r * 0.80 - 0.5) := by linarith
  have he : Real.exp (-0.6) ≤ Real.exp (-2 * (r * 0.80 - 0.5)) := Real.exp_le_exp.mpr hx
  have hq := exp_neg_point_six_gt
  have hD : (0 : ℝ) < 1 + Real.exp (-2 * (r * 0.80 - 0.5)) := by positivity
  rw [div_lt_iff₀ hD]
  nlinarith

end Ensemble


theorem sLower_empty : sLower "" = "" := rfl

namespace RealEngine

theorem normalize_name_empty : normalize_name "" = "" := rfl

/-- A profile with no first and no last name scores `0.0` with no reasons in
the name scorer, whatever the other profile holds. -/
theorem calculate_name_similarity_missing (u1 u2 : UserProfile)
    (h1 : u1.first_name = "") (h2 : u1.last_name = "") :
    calculate_name_similarity u1 u2 = (0, []) := by
  have hc : analyze_cultural_names u1 u2 = 0 := by
    have hp : hasArabicPattern (fullNameLower u1) = false := by
      unfold fullNameLower
      rw [h1, h2]
      decide
    unfold analyze_cultural_names
    rw [hp]
    simp
  unfold calculate_name_similarity nameLastScore nameFirstScore nameCultScore nameReasons
  rw [h1, h2, normalize_name_empty, hc]
  norm_num

/-- A profile with no location scores `0.0` with no reasons in the location
scorer. -/
theorem calculate_location_proximity_missing (u1 u2 : UserProfile)
    (h : u1.location = "") : calculate_location_proximity u1 u2 = (0, []) := by
  unfold calculate_location_proximity
  rw [h]
  simp

/-- A profile with no interests scores `0.0` with no reasons in the interests
scorer. -/
theorem calculate_interests_overlap_missing (u1 u2 : UserProfile)
    (h : u1.interests = []) : calculate_interests_overlap u1 u2 = (0, []) := by
  unfold calculate_interests_overlap extract_interests interestsList
  rw [h]
  simp

/-- A profile with no signup timestamp scores `0.0` with no reasons in the
temporal scorer. -/
theorem calculate_temporal_proximity_missing (u1 u2 : UserProfile)
    (h : u1.created_at = none) : calculate_temporal_proximity u1 u2 = (0, []) := by
  cases hu : u2.created_at <;> simp [calculate_temporal_proximity, h, hu]

/-- The demographic scorer on a profile with no birth date, no gender and no
profession: the age and profession parts vanish, but the unknown-gender
neutral score `0.5` still contributes `0.5 × 0.3 = 0.15`. -/
theorem calculate_demographic_match_missing (today : SimpleDate) (u1 u2 : UserProfile)
    (hd : u1.date_of_birth = none) (hg : u1.gender = "") (hp : u1.profession = "") :
    calculate_demographic_match today u1 u2 = (3/20, []) := by
  have ha : calculate_age_proximity today u1 u2 = 0 := by
    unfold calculate_age_proximity extract_age
    rw [hd]
    simp [truthyAge]
  have hprof : calculate_professional_match u1 u2 = 0 := by
    unfold calculate_professional_match
    rw [hp, sLower_empty]
    simp
  have hgen : calculate_gender_compatibility u1 u2 = 1/2 := by
    unfold calculate_gender_compatibility
    rw [hg, sLower_empty]
    norm_num
  unfold calculate_demographic_match demoAgePart demoProfPart demoReasons
  rw [ha, hprof, hgen]
  norm_num

theorem nameLastScore_nonneg (u1 u2 : UserProfile) : 0 ≤ nameLastScore u1 u2 := by
  unfold nameLastScore
  dsimp only
  split_ifs with h1 h2 h3 <;> try norm_num
  linarith

theorem nameFirstScore_nonneg (u1 u2 : UserProfile) : 0 ≤ nameFirstScore u1 u2 := by
  unfold nameFirstScore
  dsimp only
  split_ifs with h <;> try norm_num
  rcases h with ⟨-, -, h⟩
  linarith

theorem nameCultScore_nonneg (u1 u2 : UserProfile) : 0 ≤ nameCultScore u1 u2 := by
  unfold nameCultScore
  split_ifs with h <;> try norm_num
  linarith

/-- The name sub-score lies in `[0, 1]`. -/
theorem name_similarity_unit (u1 u2 : UserProfile) :
    0 ≤ (calculate_name_similarity u1 u2).1 ∧ (calculate_name_similarity u1 u2).1 ≤ 1 := by
  unfold calculate_name_similarity
  refine ⟨le_min ?_ zero_le_one, min_le_right _ _⟩
  have h1 := nameLastScore_nonneg u1 u2
  have h2 := nameFirstScore_nonneg u1 u2
  have h3 := nameCultScore_nonneg u1 u2
  linarith

/-- The location sub-score lies in `[0, 1]`. -/
theorem location_proximity_unit (u1 u2 : UserProfile) :
    0 ≤ (calculate_location_proximity u1 u2).1 ∧ (calculate_location_proximity u1 u2).1 ≤ 1 := by
  unfold calculate_location_proximity
  dsimp only
  split_ifs <;> norm_num

theorem gender_compatibility_bounds (u1 u2 : UserProfile) :
    0 ≤ calculate_gender_compatibility u1 u2 ∧ calculate_gender_compatibility u1 u2 ≤ 1 := by
  unfold calculate_gender_compatibility
  dsimp only
  split_ifs <;> norm_num

theorem demoAgePart_nonneg (today : SimpleDate) (u1 u2 : UserProfile) :
    0 ≤ demoAgePart today u1 u2 := by
  unfold demoAgePart
  split_ifs with h <;> linarith

theorem demoProfPart_nonneg (u1 u2 : UserProfile) : 0 ≤ demoProfPart u1 u2 := by
  unfold demoProfPart
  split_ifs with h <;> linarith

/-- The demographic sub-score lies in `[0, 1]`. -/
theorem demographic_match_unit (today : SimpleDate) (u1 u2 : UserProfile) :
    0 ≤ (calculate_demographic_match today u1 u2).1 ∧
      (calculate_demographic_match today u1 u2).1 ≤ 1 := by
  unfold calculate_demographic_match
  refine ⟨le_min ?_ zero_le_one, min_le_right _ _⟩
  have h1 := demoAgePart_nonneg today u1 u2
  have h2 := demoProfPart_nonneg u1 u2
  have h3 := (gender_compatibility_bounds u1 u2).1
  linarith

/-- The interests sub-score lies in `[0, 1]`. -/
theorem interests_overlap_unit (u1 u2 : UserProfile) :
    0 ≤ (calculate_interests_overlap u1 u2).1 ∧ (calculate_interests_overlap u1 u2).1 ≤ 1 := by
  unfold calculate_interests_overlap
  dsimp only
  split_ifs with h1 h2 h3
  · exact ⟨le_refl 0, zero_le_one⟩
  · exact ⟨le_refl 0, zero_le_one⟩
  all_goals
    have hpos : 0 < ((extract_interests u1 ∪ extract_interests u2).card : ℚ) := by
      exact_mod_cast Finset.card_pos.mpr (Finset.nonempty_iff_ne_empty.mpr h2)
  all_goals
    exact ⟨div_nonneg (Nat.cast_nonneg _) hpos.le,
      (div_le_one hpos).mpr
        (by exact_mod_cast Finset.card_le_card Finset.inter_subset_union)⟩

/-- The temporal sub-score lies in `[0, 1]`. -/
theorem temporal_proximity_unit (u1 u2 : UserProfile) :
    0 ≤ (calculate_temporal_proximity u1 u2).1 ∧ (calculate_temporal_proximity u1 u2).1 ≤ 1 := by
  unfold calculate_temporal_proximity
  cases u1.created_at <;> cases u2.created_at <;> dsimp only <;> try norm_num
  split_ifs <;> norm_num

/-- The weighted overall score of `calculate_match_with_context` lies in
`[0, 1]`: the five weights sum to exactly `1`. -/
theorem overall_score_unit (today : SimpleDate) (u1 u2 : UserProfile) :
    0 ≤ overall_score today u1 u2 ∧ overall_score today u1 u2 ≤ 1 := by
  unfold overall_score
  have h1 := name_similarity_unit u1 u2
  have h2 := location_proximity_unit u1 u2
  have h3 := demographic_match_unit today u1 u2
  have h4 := interests_overlap_unit u1 u2
  have h5 := temporal_proximity_unit u1 u2
  constructor <;> linarith [h1.1, h1.2, h2.1, h2.2, h3.1, h3.2, h4.1, h4.2, h5.1, h5.2]

end RealEngine


/-! ## Concrete inputs for witnesses and counterexamples -/

/-- A fixed evaluation date (`date.today()` at verification time). -/
def today0 : SimpleDate := ⟨2026, 10, 12⟩

def userT : UserProfile := blankUser "t"

def userB : UserProfile := blankUser "b"

def userA : UserProfile := blankUser "a"

namespace RealEngine

theorem round3_zero : round3 0 = 0 := by norm_num [round3, roundHalfEven]

theorem round3_half : round3 (1/2) = 1/2 := by norm_num [round3, roundHalfEven]

theorem round3_3_100 : round3 (3/100) = 3/100 := by norm_num [round3, roundHalfEven]

theorem round3_3_20 : round3 (3/20) = 3/20 := by norm_num [round3, roundHalfEven]

theorem blank_name (i j : String) :
    calculate_name_similarity (blankUser i) (blankUser j) = (0, []) :=
  calculate_name_similarity_missing _ _ rfl rfl

theorem blank_location (i j : String) :
    calculate_location_proximity (blankUser i) (blankUser j) = (0, []) :=
  calculate_location_proximity_missing _ _ rfl

theorem blank_interests (i j : String) :
    calculate_interests_overlap (blankUser i) (blankUser j) = (0, []) :=
  calculate_interests_overlap_missing _ _ rfl

theorem blank_temporal (i j : String) :
    calculate_temporal_proximity (blankUser i) (blankUser j) = (0, []) :=
  calculate_temporal_proximity_missing _ _ rfl

theorem blank_demographic (today : SimpleDate) (i j : String) :
    calculate_demographic_match today (blankUser i) (blankUser j) = (3/20, []) :=
  calculate_demographic_match_missing today _ _ rfl rfl rfl

/-- Two field-less profiles: the weighted overall score is
`0.15 × 0.20 = 0.03`, entirely from the neutral gender sub-score. -/
theorem blank_overall (today : SimpleDate) (i j : String) :
    overall_score today (blankUser i) (blankUser j) = 3/100 := by
  unfold overall_score
  rw [blank_name, blank_location, blank_demographic, blank_interests, blank_temporal]
  norm_num

/-- The general-context fallback of the relationship predictor, reached when
the name score is at most `0.7` and the overall score at most `0.6`. -/
theorem predict_general_fallback (today : SimpleDate) (u1 u2 : UserProfile)
    (ov ns : ℚ) (hns : ¬ 0.7 < ns) (hov : ¬ 0.6 < ov) :
    predict_relationship_type today u1 u2 ov ns "general" =
      ("community", "possible connection", 0.5) := by
  unfold predict_relationship_type
  dsimp only
  rw [if_neg (by decide), if_neg (by decide), if_neg (by decide), if_neg hns, if_neg hov]

/-- The complete match dict for two field-less profiles under the general
context. -/
theorem blank_match (today : SimpleDate) (i j : String) :
    calculate_match_with_context today (blankUser i) (blankUser j) "general" =
      ⟨j, 3/100, "low", "community", ⟨0, 0, 3/20, 0, 0⟩, [], "possible connection", 1/2⟩ := by
  unfold calculate_match_with_context
  dsimp only
  rw [blank_name, blank_location, blank_demographic, blank_interests, blank_temporal,
    blank_overall, predict_general_fallback today _ _ _ _ (by norm_num) (by norm_num)]
  dsimp only
  rw [round3_3_100, round3_zero, round3_3_20]
  rw [if_neg (by norm_num : ¬ (0.8 : ℚ) ≤ 3/100), if_neg (by norm_num : ¬ (0.6 : ℚ) ≤ 3/100)]
  norm_num [round3_half, blankUser]

end RealEngine

namespace RealEngine

/-- The match dict produced for a field-less candidate with id `j`. -/
def blankMatch (j : String) : MatchDict :=
  ⟨j, 3/100, "low", "community", ⟨0, 0, 3/20, 0, 0⟩, [], "possible connection", 1/2⟩

theorem target_of_tba : target_of "t" [userT, userB, userA] = some userT := by decide

theorem blankMatch_keep (j : String) :
    decide ((1:ℚ)/100 ≤ (blankMatch j).confidence_score) = true :=
  decide_eq_true (by norm_num [blankMatch])

/-- The candidate evaluation step of `find_matches` on the three-blank pool:
both candidates score `0.03 ≥ 0.01` and survive the filter, in pool order. -/
theorem filtered_tba :
    filtered_matches today0 "t" [userT, userB, userA] (1/100) "general" =
      [blankMatch "b", blankMatch "a"] := by
  unfold filtered_matches
  rw [target_of_tba]
  dsimp only
  rw [show ([userT, userB, userA].filter (fun u => !(u.id == "t"))) = [userB, userA] from by decide]
  rw [List.map_cons, List.map_cons, List.map_nil]
  rw [show userT = blankUser "t" from rfl, show userB = blankUser "b" from rfl,
    show userA = blankUser "a" from rfl]
  rw [blank_match, blank_match]
  rw [show (⟨"b", 3/100, "low", "community", ⟨0, 0, 3/20, 0, 0⟩, [], "possible connection", 1/2⟩ :
        MatchDict) = blankMatch "b" from rfl,
    show (⟨"a", 3/100, "low", "community", ⟨0, 0, 3/20, 0, 0⟩, [], "possible connection", 1/2⟩ :
        MatchDict) = blankMatch "a" from rfl]
  simp only [List.filter_cons, List.filter_nil, blankMatch_keep, if_true]

/-- Sorting the two equal-confidence matches keeps their input order: Python's
sort is stable. -/
theorem sort_ba :
    pySortDesc [blankMatch "b", blankMatch "a"] = [blankMatch "b", blankMatch "a"] := by
  unfold pySortDesc
  rw [List.insertionSort, List.insertionSort, List.insertionSort, List.orderedInsert_nil]
  rw [List.orderedInsert, if_pos (by norm_num [matchSortRel, blankMatch])]

/-- Full evaluation of `find_matches` on the pool `[t, b, a]` of blank
profiles: the result lists candidate `b` before candidate `a`. -/
theorem find_matches_tba :
    find_matches today0 "t" [userT, userB, userA] 50 (1/100) "general" =
      [blankMatch "b", blankMatch "a"] := by
  unfold find_matches
  rw [target_of_tba]
  dsimp only
  rw [filtered_tba, sort_ba]
  rfl

/-- A pool without the target id: `find_matches` returns the ordinary empty
list. -/
theorem find_matches_missing_target :
    find_matches today0 "missing" [userT] 50 (1/100) "general" = [] := by
  unfold find_matches
  rw [show target_of "missing" [userT] = none from by decide]

/-- A pool consisting of just the target: `find_matches` also returns the
empty list, indistinguishable from the missing-target case. -/
theorem find_matches_only_target :
    find_matches today0 "t" [userT] 50 (1/100) "general" = [] := by
  unfold find_matches
  rw [show target_of "t" [userT] = some userT from by decide]
  dsimp only
  unfold filtered_matches
  rw [show target_of "t" [userT] = some userT from by decide]
  dsimp only
  rw [show ([userT].filter (fun u => !(u.id == "t"))) = [] from by decide]
  rfl

end RealEngine

namespace ProductionService

theorem prod_normalize_name_empty : normalize_name "" = "" := rfl

theorem prod_blank_location (u1 u2 : UserProfile) (h : u1.location = "") :
    analyze_location_similarity u1 u2 = (0, []) := by
  unfold analyze_location_similarity
  rw [h]
  simp [sTrim, trimChars]

theorem prod_blank_profession (u1 u2 : UserProfile) (h : u1.profession = "") :
    analyze_profession_similarity u1 u2 = (0, []) := by
  unfold analyze_profession_similarity
  rw [h]
  simp [sTrim, trimChars]

theorem prod_blank_age (today : SimpleDate) (u1 u2 : UserProfile)
    (h : u1.date_of_birth = none) : analyze_age_compatibility today u1 u2 = (0, []) := by
  unfold analyze_age_compatibility calculate_age
  rw [h]
  simp [RealEngine.truthyAge]

theorem prod_blank_name (u1 u2 : UserProfile) (h1 : u1.first_name = "")
    (h2 : u1.last_name = "") : analyze_name_similarity u1 u2 = (0, []) := by
  unfold analyze_name_similarity analyze_name_cultural_patterns
  rw [h1, h2, prod_normalize_name_empty]
  norm_num

theorem infer_language_blank (i : String) :
    infer_language_from_name (blankUser i) = none := by
  unfold infer_language_from_name
  dsimp only [blankUser]
  decide

theorem infer_region_blank (i : String) :
    infer_cultural_region (blankUser i) = none := by
  unfold infer_cultural_region
  dsimp only [blankUser]
  decide

theorem prod_blank_cultural (i j : String) :
    analyze_cultural_similarity (blankUser i) (blankUser j) = (0, []) := by
  unfold analyze_cultural_similarity
  rw [infer_language_blank, infer_region_blank]
  norm_num

theorem prod_blank_family (i j : String) :
    analyze_family_relationship (blankUser i) (blankUser j) = ⟨0, [], none⟩ := by
  unfold analyze_family_relationship
  dsimp only [blankUser]
  rw [prod_normalize_name_empty,
    show normalize_name ("" ++ " " ++ "") = "" from by decide]
  norm_num

theorem prod_blank_scores (today : SimpleDate) (i j : String) :
    comp_scores today (blankUser i) (blankUser j) = ⟨0, 0, 0, 0, 0, 0⟩ := by
  unfold comp_scores
  rw [prod_blank_family, prod_blank_location _ _ rfl, prod_blank_profession _ _ rfl,
    prod_blank_age today _ _ rfl, prod_blank_name _ _ rfl rfl, prod_blank_cultural]

theorem prod_blank_raw_reasons (today : SimpleDate) (i j : String) :
    comprehensiveReasonsRaw today (blankUser i) (blankUser j) = [] := by
  unfold comprehensiveReasonsRaw
  rw [prod_blank_scores]
  norm_num

end ProductionService

/-! ## The Smith family scenario (§8 of the spec) -/

/-- Target profile `{last_name: "Smith", father_name: "John Smith",
birth_date: "1990-01-01"}`. -/
def smithTarget : UserProfile :=
  ⟨"t1", "", "Smith", "John Smith", "", "", "", "", [], some ⟨1990, 1, 1⟩, none,
   "", "", "", "", ""⟩

/-- Candidate profile `{last_name: "Smith", father_name: "John Smith",
birth_date: "1992-06-15"}`. -/
def smithCandidate : UserProfile :=
  ⟨"c1", "", "Smith", "John Smith", "", "", "", "", [], some ⟨1992, 6, 15⟩, none,
   "", "", "", "", ""⟩

namespace ProductionService

/-- The family heuristic on the Smith pair: `0.5` for the shared father plus
`0.2` for the shared last name. -/
theorem smith_family_score :
    (analyze_family_relationship smithTarget smithCandidate).score = 7/10 := by
  unfold analyze_family_relationship
  dsimp only [smithTarget, smithCandidate]
  rw [show normalize_name "John Smith" = "john smith" from by decide,
    prod_normalize_name_empty,
    show normalize_name "Smith" = "smith" from by decide,
    show normalize_name ("" ++ " " ++ "Smith") = "smith" from by decide]
  norm_num [eq_false (show ¬ (("john smith" : String) = "") from by decide),
    eq_false (show ¬ (("smith" : String) = "") from by decide),
    eq_false (show ¬ (("smith" : String) = "john smith") from by decide)]

end ProductionService

namespace RealEngine

theorem smith_cultural : analyze_cultural_names smithTarget smithCandidate = 0 := by
  unfold analyze_cultural_names fullNameLower
  dsimp only [smithTarget, smithCandidate]
  rw [show hasArabicPattern (sLower ("" ++ " " ++ "Smith")) = false from by decide]
  simp

/-- The name scorer on the Smith pair: the exact last-name match alone,
`0.8`. -/
theorem smith_name_score :
    (calculate_name_similarity smithTarget smithCandidate).1 = 4/5 := by
  unfold calculate_name_similarity nameLastScore nameFirstScore nameCultScore
  dsimp only
  rw [smith_cultural]
  dsimp only [smithTarget, smithCandidate]
  rw [show normalize_name "Smith" = "smith" from by decide, normalize_name_empty]
  norm_num [eq_false (show ¬ (("smith" : String) = "") from by decide)]

theorem extract_age_smithT (today : SimpleDate) (hm : 1 ≤ today.month)
    (hd : 1 ≤ today.day) :
    extract_age today smithTarget = some (today.year - 1990) := by
  unfold extract_age
  dsimp only [smithTarget]
  rw [if_neg (by omega)]
  norm_num

theorem extract_age_smithC (today : SimpleDate) :
    extract_age today smithCandidate =
      some (today.year - 1992 -
        (if today.month < 6 ∨ (today.month = 6 ∧ today.day < 15) then 1 else 0)) := by
  unfold extract_age
  dsimp only [smithCandidate]

theorem truthyAge_of_ne (x : Int) (h : x ≠ 0) : truthyAge (some x) = true := by
  simp [truthyAge, bne_iff_ne]
  exact h

/-- The family-context prediction for the Smith pair, for any evaluation date
from 1994 on: both ages are defined and positive, the age difference is `2` or
`3` depending on the date, and either way the `≤ 3` band fires: label
"possible twin" with confidence `0.9`.  The overall score is irrelevant in
this branch. -/
theorem smith_predict (today : SimpleDate) (hm : 1 ≤ today.month)
    (hd : 1 ≤ today.day) (hy : 1994 ≤ today.year) (ov : ℚ) :
    predict_relationship_type today smithTarget smithCandidate ov (4/5) "family" =
      ("family", "possible twin", 0.9) := by
  unfold predict_relationship_type
  dsimp only
  rw [extract_age_smithT today hm hd, extract_age_smithC today]
  by_cases hc : today.month < 6 ∨ (today.month = 6 ∧ today.day < 15)
  · rw [if_pos hc]
    rw [truthyAge_of_ne _ (by omega), truthyAge_of_ne _ (by omega)]
    rw [if_pos rfl, if_pos (by norm_num : (0.6 : ℚ) < 4/5)]
    simp only [Bool.and_self, if_true, Option.getD_some]
    rw [if_pos (by omega : (today.year - 1990 - (today.year - 1992 - 1)).natAbs ≤ 3)]
  · rw [if_neg hc]
    rw [truthyAge_of_ne _ (by omega), truthyAge_of_ne _ (by omega)]
    rw [if_pos rfl, if_pos (by norm_num : (0.6 : ℚ) < 4/5)]
    simp only [Bool.and_self, if_true, Option.getD_some]
    rw [if_pos (by omega : (today.year - 1990 - (today.year - 1992 - 0)).natAbs ≤ 3)]

end RealEngine

/-! ## Claims -/

/-- **C3 counterexample**: the demographic scorer on two profiles with no
birth date, no gender and no profession returns `0.15` (the neutral gender
score `0.5` weighted by `0.3`), not the `0.0` the claim requires; the reason
list is empty. -/
theorem C3_counterexample :
    RealEngine.calculate_demographic_match today0 userT userB = (3/20, []) ∧ (3:ℚ)/20 ≠ 0 :=
  ⟨RealEngine.blank_demographic today0 "t" "b", by norm_num⟩

/-- **C3 (amended)**: the name, location, interests and temporal scorers do
return exactly `0.0` with an empty reason list when their required fields are
missing on one side; the demographic scorer instead returns exactly `0.15`
with an empty reason list when birth date, gender and profession are all
missing, because the gender sub-score is a neutral `0.5` rather than `0`. -/
theorem C3_missing_fields_amended (today : SimpleDate) (u1 u2 : UserProfile) :
    ((u1.first_name = "" ∧ u1.last_name = "") →
      RealEngine.calculate_name_similarity u1 u2 = (0, [])) ∧
    (u1.location = "" → RealEngine.calculate_location_proximity u1 u2 = (0, [])) ∧
    (u1.interests = [] → RealEngine.calculate_interests_overlap u1 u2 = (0, [])) ∧
    (u1.created_at = none → RealEngine.calculate_temporal_proximity u1 u2 = (0, [])) ∧
    ((u1.date_of_birth = none ∧ u1.gender = "" ∧ u1.profession = "") →
      RealEngine.calculate_demographic_match today u1 u2 = (3/20, [])) :=
  ⟨fun h => RealEngine.calculate_name_similarity_missing u1 u2 h.1 h.2,
   fun h => RealEngine.calculate_location_proximity_missing u1 u2 h,
   fun h => RealEngine.calculate_interests_overlap_missing u1 u2 h,
   fun h => RealEngine.calculate_temporal_proximity_missing u1 u2 h,
   fun h => RealEngine.calculate_demographic_match_missing today u1 u2 h.1 h.2.1 h.2.2⟩

theorem C3_witness :
    (userT.first_name = "" ∧ userT.last_name = "") ∧
    (userT.date_of_birth = none ∧ userT.gender = "" ∧ userT.profession = "") ∧
    RealEngine.calculate_name_similarity userT userB = (0, []) ∧
    RealEngine.calculate_demographic_match today0 userT userB = (3/20, []) :=
  ⟨⟨rfl, rfl⟩, ⟨rfl, rfl, rfl⟩,
   (C3_missing_fields_amended today0 userT userB).1 ⟨rfl, rfl⟩,
   (C3_missing_fields_amended today0 userT userB).2.2.2.2 ⟨rfl, rfl, rfl⟩⟩

/-- **C4 counterexample**: at raw score `1`, the code's ensemble calibration
(reliability factor `0.80`, the dict default — there is no `"ensemble"` key)
differs from the spec's formula with factor `0.90`. -/
theorem C4_counterexample :
    Ensemble.calibrate_score 1 "ensemble" ≠ Ensemble.claimed_ensemble_calibration 1 := by
  unfold Ensemble.calibrate_score Ensemble.claimed_ensemble_calibration
  rw [Ensemble.calibration_factor_ensemble]
  intro h
  have e1 : (-2 : ℝ) * (1 * 0.80 - 0.5) = -0.6 := by norm_num
  have e2 : (-2 : ℝ) * (0.90 * 1 - 0.5) = -0.8 := by norm_num
  rw [e1, e2] at h
  have p1 : (0:ℝ) < 1 + Real.exp (-0.6) := by positivity
  have p2 : (0:ℝ) < 1 + Real.exp (-0.8) := by positivity
  rw [div_eq_div_iff (ne_of_gt p1) (ne_of_gt p2)] at h
  have hexp : Real.exp (-0.6) = Real.exp (-0.8) := by linarith
  have heq := Real.exp_eq_exp.mp hexp
  norm_num at heq

/-- **C4 (amended)**: the ensemble-level calibration multiplies the raw score
by the default reliability constant `0.80` (the calibration dict has keys only
for the four component algorithms, so the `"ensemble"` lookup falls through to
the default) and then applies the logistic squash
`1 / (1 + e^(-2(x - 0.5)))`. -/
theorem C4_ensemble_calibration_amended (r : ℝ) :
    Ensemble.calibrate_score r "ensemble" =
      1 / (1 + Real.exp (-2 * (0.80 * r - 0.5))) := by
  unfold Ensemble.calibrate_score
  rw [Ensemble.calibration_factor_ensemble, mul_comm r]

/-- **C5 counterexample**: with the target id absent from the pool,
`find_matches` succeeds with the ordinary empty list — the same value a
successful call with the target present and no candidates returns — instead
of surfacing a `NotFound` error. -/
theorem C5_counterexample :
    RealEngine.find_matches today0 "missing" [userT] 50 (1/100) "general" = [] ∧
    RealEngine.find_matches today0 "t" [userT] 50 (1/100) "general" = [] :=
  ⟨RealEngine.find_matches_missing_target, RealEngine.find_matches_only_target⟩

/-- **C5 (amended)**: when the target id is absent from the pool,
`find_matches` logs the error and returns the empty list; no error value is
surfaced to the caller. -/
theorem C5_target_absent_returns_empty (today : SimpleDate) (tid : String)
    (users : List UserProfile) (maxr : Nat) (minc : ℚ) (ctx : String)
    (h : ∀ u ∈ users, u.id ≠ tid) :
    RealEngine.find_matches today tid users maxr minc ctx = [] := by
  have htag : RealEngine.target_of tid users = none := by
    unfold RealEngine.target_of
    rw [List.filter_eq_nil_iff.mpr (fun u hu => by simpa using h u hu)]
    rfl
  unfold RealEngine.find_matches
  rw [htag]

theorem C5_witness :
    (∀ u ∈ [userB], u.id ≠ "missing") ∧
    RealEngine.find_matches today0 "missing" [userB] 7 (1/2) "family" = [] :=
  ⟨by decide,
   C5_target_absent_returns_empty today0 "missing" [userB] 7 (1/2) "family" (by decide)⟩

/-- **C6 counterexample**: `calculate_match_with_context` on two profiles with
no overlapping fields returns an empty `match_reasons` list — the default
placeholder is only inserted by `calculate_comprehensive_similarity`, not on
this path. -/
theorem C6_counterexample :
    (RealEngine.calculate_match_with_context today0 userT userB "general").match_reasons = [] := by
  rw [show userT = blankUser "t" from rfl, show userB = blankUser "b" from rfl,
    RealEngine.blank_match]

/-- **C6 (amended)**: `calculate_comprehensive_similarity` never returns an
empty reason list — when the combiner accumulates zero reasons the placeholder
`"Profile compatibility"` is inserted; but `calculate_match_with_context`
(the real-engine path) has no such default and can return empty reasons. -/
theorem C6_reasons_amended (today : SimpleDate) (u1 u2 : UserProfile) :
    (ProductionService.calculate_comprehensive_similarity today u1 u2).reasons ≠ [] ∧
    (ProductionService.comprehensiveReasonsRaw today u1 u2 = [] →
      (ProductionService.calculate_comprehensive_similarity today u1 u2).reasons =
        ["Profile compatibility"]) := by
  unfold ProductionService.calculate_comprehensive_similarity
  dsimp only
  constructor
  · split_ifs with h
    · simp
    · exact h
  · intro h
    rw [if_pos h]

theorem C6_witness :
    ProductionService.comprehensiveReasonsRaw today0 userT userB = [] ∧
    (ProductionService.calculate_comprehensive_similarity today0 userT userB).reasons =
      ["Profile compatibility"] :=
  ⟨ProductionService.prod_blank_raw_reasons today0 "t" "b",
   (C6_reasons_amended today0 userT userB).2
     (ProductionService.prod_blank_raw_reasons today0 "t" "b")⟩

/-- **C7**: for the Smith target/candidate pair under the family context and
any evaluation date from 1994 on (month and day well-formed): the family
heuristic scores at least `0.5` (it scores `0.7`: shared father plus shared
last name), the name score from the exact last-name match is `0.8 > 0.6`, and
the relationship prediction is `("family", "possible twin", 0.9)` — the age
difference is `2` or `3` depending on the date, either way within the `≤ 3`
twin band. -/
theorem C7_family_scenario (today : SimpleDate) (hm : 1 ≤ today.month)
    (hd : 1 ≤ today.day) (hy : 1994 ≤ today.year) (ov : ℚ) :
    1/2 ≤ (ProductionService.analyze_family_relationship smithTarget smithCandidate).score ∧
    (0.6 : ℚ) < (RealEngine.calculate_name_similarity smithTarget smithCandidate).1 ∧
    RealEngine.predict_relationship_type today smithTarget smithCandidate ov
        (RealEngine.calculate_name_similarity smithTarget smithCandidate).1 "family" =
      ("family", "possible twin", 0.9) := by
  refine ⟨?_, ?_, ?_⟩
  · rw [ProductionService.smith_family_score]
    norm_num
  · rw [RealEngine.smith_name_score]
    norm_num
  · rw [RealEngine.smith_name_score]
    exact RealEngine.smith_predict today hm hd hy ov

theorem C7_witness :
    (1 ≤ today0.month ∧ 1 ≤ today0.day ∧ 1994 ≤ today0.year) ∧
    1/2 ≤ (ProductionService.analyze_family_relationship smithTarget smithCandidate).score ∧
    (0.6 : ℚ) < (RealEngine.calculate_name_similarity smithTarget smithCandidate).1 ∧
    RealEngine.predict_relationship_type today0 smithTarget smithCandidate 0
        (RealEngine.calculate_name_similarity smithTarget smithCandidate).1 "family" =
      ("family", "possible twin", 0.9) :=
  ⟨⟨by decide, by decide, by decide⟩,
   C7_family_scenario today0 (by decide) (by decide) (by decide) 0⟩

/-- **C8 counterexample**: `normalize_location` does not strip `"county"`
(nor `"state"`/`"province"`): normalizing `"Travis County"` yields
`"travis county"`, not `"travis"`, so the two strings of the claim normalize
differently. -/
theorem C8_counterexample :
    RealEngine.normalize_location "Travis County" ≠ RealEngine.normalize_location "travis" := by
  decide

/-- **C8 (amended)**: location normalization lowercases, collapses whitespace,
and strips exactly the words `{city, town, village, area, district}`; the
words `county`, `state`, `province` are not stripped. -/
theorem C8_location_normalization_amended :
    RealEngine.normalize_location "New York City" = "new york" ∧
    RealEngine.normalize_location "Springfield Town Area" = "springfield" ∧
    RealEngine.normalize_location "The Village District" = "the" ∧
    RealEngine.normalize_location "Travis County" = "travis county" ∧
    RealEngine.normalize_location "Washington State" = "washington state" ∧
    RealEngine.normalize_location "Ontario Province" = "ontario province" ∧
    RealEngine.normalize_location "  MiXeD   Case  Words " = "mixed case words" := by
  decide

/-- **C9**: for every user profile, the adaptive weighter's output — the
multiplicatively adjusted weights renormalized by `AlgorithmWeight.normalize`
— has components summing to exactly `1`, each strictly positive. -/
theorem C9_weight_normalization (p : Ensemble.EnsembleProfile) :
    ((Ensemble.calculate_weights p).tensorflow + (Ensemble.calculate_weights p).nlp +
      (Ensemble.calculate_weights p).graph + (Ensemble.calculate_weights p).genetic = 1) ∧
    0 < (Ensemble.calculate_weights p).tensorflow ∧
    0 < (Ensemble.calculate_weights p).nlp ∧
    0 < (Ensemble.calculate_weights p).graph ∧
    0 < (Ensemble.calculate_weights p).genetic :=
  Ensemble.normalize_of_pos (Ensemble.adjusted_weights p) (Ensemble.adjusted_weights_pos p)

/-- **C10**: for every raw ensemble score in `[0, 1]`, the ensemble-level
calibrated confidence is strictly below `0.8` (its supremum is
`1/(1+e^{-0.6}) ≈ 0.646`), so `_determine_match_type` never classifies a
calibrated match as `"family"` and the `"high"` confidence band is
unreachable through the calibrated path. -/
theorem C10_calibrated_confidence_below_family_threshold (r : ℝ)
    (h0 : 0 ≤ r) (h1 : r ≤ 1) :
    Ensemble.calibrate_score r "ensemble" < 0.8 ∧
    Ensemble.determine_match_type (Ensemble.calibrate_score r "ensemble") ≠ "family" := by
  have key := Ensemble.calibrate_score_ensemble_lt r h1
  refine ⟨key, ?_⟩
  unfold Ensemble.determine_match_type
  rw [if_neg (not_le.mpr (by linarith))]
  split_ifs <;> decide

theorem C10_witness :
    ((0:ℝ) ≤ 1 ∧ (1:ℝ) ≤ 1) ∧
    Ensemble.calibrate_score 1 "ensemble" < 0.8 ∧
    Ensemble.determine_match_type (Ensemble.calibrate_score 1 "ensemble") ≠ "family" :=
  ⟨⟨zero_le_one, le_refl 1⟩,
   C10_calibrated_confidence_below_family_threshold 1 zero_le_one (le_refl 1)⟩

namespace RealEngine

theorem find_matches_eq_of_target (today : SimpleDate) (tid : String)
    (users : List UserProfile) (maxr : Nat) (minc : ℚ) (ctx : String)
    (t : UserProfile) (h : target_of tid users = some t) :
    find_matches today tid users maxr minc ctx =
      (pySortDesc (filtered_matches today tid users minc ctx)).take maxr := by
  unfold find_matches
  rw [h]

theorem filtered_matches_mem_conf (today : SimpleDate) (tid : String)
    (users : List UserProfile) (minc : ℚ) (ctx : String) (m : MatchDict)
    (hm : m ∈ filtered_matches today tid users minc ctx) :
    minc ≤ m.confidence_score := by
  unfold filtered_matches at hm
  cases htag : target_of tid users with
  | none => rw [htag] at hm; simp at hm
  | some t =>
    rw [htag] at hm
    exact of_decide_eq_true (List.mem_filter.mp hm).2

end RealEngine

/-- **C2 counterexample**: on the pool `[t, b, a]` of otherwise identical
blank profiles, candidates `b` and `a` get the same confidence `0.03`, yet
the ranking returns them in input order `[b, a]` — not in candidate-id
ascending order `[a, b]` as the claim requires, since `"a" < "b"`.  Python's
`list.sort` is stable; there is no id tie-break. -/
theorem C2_counterexample :
    (RealEngine.find_matches today0 "t" [userT, userB, userA] 50 (1/100) "general").map
        (fun m => m.user_id) = ["b", "a"] ∧
    (RealEngine.find_matches today0 "t" [userT, userB, userA] 50 (1/100) "general").map
        (fun m => m.confidence_score) = [3/100, 3/100] ∧
    ("a" : String) < "b" := by
  refine ⟨?_, ?_, String.lt_iff_toList_lt.mpr (by decide)⟩
  · rw [RealEngine.find_matches_tba]
    rfl
  · rw [RealEngine.find_matches_tba]
    rfl

/-- **C2 (amended)**: the ranking keeps exactly the outcomes with confidence
`≥ minConfidence`, sorts them descending by confidence, truncates to
`maxResults`, and breaks confidence ties by keeping the candidates' input
order (Python's sort is stable) — not by candidate id.  Tie stability is
stated via filters: for every confidence value `c`, the `c`-confidence
outcomes of the result (when no truncation occurs) are exactly those of the
unsorted filtered list, in the same order. -/
theorem C2_amended_ranking (today : SimpleDate) (tid : String)
    (users : List UserProfile) (maxr : Nat) (minc : ℚ) (ctx : String) (c : ℚ)
    (hlen : (RealEngine.filtered_matches today tid users minc ctx).length ≤ maxr) :
    (∀ m ∈ RealEngine.find_matches today tid users maxr minc ctx,
      minc ≤ m.confidence_score) ∧
    (RealEngine.find_matches today tid users maxr minc ctx).Pairwise
      RealEngine.matchSortRel ∧
    (RealEngine.find_matches today tid users maxr minc ctx).length ≤ maxr ∧
    (RealEngine.find_matches today tid users maxr minc ctx).filter
        (fun m => decide (m.confidence_score = c)) =
      (RealEngine.filtered_matches today tid users minc ctx).filter
        (fun m => decide (m.confidence_score = c)) := by
  cases htag : RealEngine.target_of tid users with
  | none =>
    have hfm : RealEngine.find_matches today tid users maxr minc ctx = [] := by
      unfold RealEngine.find_matches
      rw [htag]
    have hfl : RealEngine.filtered_matches today tid users minc ctx = [] := by
      unfold RealEngine.filtered_matches
      rw [htag]
    rw [hfm, hfl]
    simp
  | some t =>
    rw [RealEngine.find_matches_eq_of_target today tid users maxr minc ctx t htag]
    have hsortlen :
        (RealEngine.pySortDesc (RealEngine.filtered_matches today tid users minc ctx)).length =
          (RealEngine.filtered_matches today tid users minc ctx).length :=
      (RealEngine.pySortDesc_perm _).length_eq
    refine ⟨?_, ?_, ?_, ?_⟩
    · intro m hm
      have hm2 := List.mem_of_mem_take hm
      have hm3 := (RealEngine.pySortDesc_perm _).mem_iff.mp hm2
      exact RealEngine.filtered_matches_mem_conf today tid users minc ctx m hm3
    · exact (RealEngine.pySortDesc_sorted _).sublist (List.take_sublist maxr _)
    · exact List.length_take_le maxr _
    · rw [List.take_of_length_le (by rw [hsortlen]; exact hlen)]
      exact RealEngine.pySortDesc_filter_key c _

theorem C2_witness :
    ((RealEngine.filtered_matches today0 "t" [userT, userB, userA] (1/100) "general").length ≤
      (RealEngine.filtered_matches today0 "t" [userT, userB, userA] (1/100) "general").length) ∧
    (RealEngine.find_matches today0 "t" [userT, userB, userA]
        (RealEngine.filtered_matches today0 "t" [userT, userB, userA] (1/100) "general").length
        (1/100) "general").filter (fun m => decide (m.confidence_score = 3/100)) =
      (RealEngine.filtered_matches today0 "t" [userT, userB, userA] (1/100) "general").filter
        (fun m => decide (m.confidence_score = 3/100)) :=
  ⟨le_refl _,
   (C2_amended_ranking today0 "t" [userT, userB, userA] _ (1/100) "general" (3/100)
     (le_refl _)).2.2.2⟩

/-- Concrete combination input for the C1 witness: one contributing algorithm
with confidence `1` and unit weights. -/
theorem ensemble_score_nlp_one :
    Ensemble.ensemble_score [("nlp", 1)] ⟨1, 1, 1, 1⟩ = some 1 := by
  unfold Ensemble.ensemble_score Ensemble.weight_of
  norm_num [eq_false (show ¬(("nlp" : String) = "tensorflow") from by decide)]

/-- **C1**: every sub-score — name, location, demographic, interests,
temporal (real engine) and the family heuristic (production service) — lies
in `[0, 1]`; the weighted sum of `calculate_match_with_context` (weights
`0.35/0.25/0.20/0.15/0.05`, summing to `1`) lies in `[0, 1]`; and the
renormalized weighted average `Σ score·weight / Σ weight` of
`_combine_algorithm_results` lies in `[0, 1]` whenever the incoming algorithm
confidences do and the weights are nonnegative. -/
theorem C1_subscores_and_combined_in_unit_interval
    (today : SimpleDate) (u1 u2 : UserProfile) (scores : List (String × ℚ))
    (w : Ensemble.AlgorithmWeight) (q : ℚ)
    (hs : ∀ p ∈ scores, 0 ≤ p.2 ∧ p.2 ≤ 1)
    (hw : 0 ≤ w.tensorflow ∧ 0 ≤ w.nlp ∧ 0 ≤ w.graph ∧ 0 ≤ w.genetic)
    (hq : Ensemble.ensemble_score scores w = some q) :
    (0 ≤ (RealEngine.calculate_name_similarity u1 u2).1 ∧
      (RealEngine.calculate_name_similarity u1 u2).1 ≤ 1) ∧
    (0 ≤ (RealEngine.calculate_location_proximity u1 u2).1 ∧
      (RealEngine.calculate_location_proximity u1 u2).1 ≤ 1) ∧
    (0 ≤ (RealEngine.calculate_demographic_match today u1 u2).1 ∧
      (RealEngine.calculate_demographic_match today u1 u2).1 ≤ 1) ∧
    (0 ≤ (RealEngine.calculate_interests_overlap u1 u2).1 ∧
      (RealEngine.calculate_interests_overlap u1 u2).1 ≤ 1) ∧
    (0 ≤ (RealEngine.calculate_temporal_proximity u1 u2).1 ∧
      (RealEngine.calculate_temporal_proximity u1 u2).1 ≤ 1) ∧
    (0 ≤ (ProductionService.analyze_family_relationship u1 u2).score ∧
      (ProductionService.analyze_family_relationship u1 u2).score ≤ 1) ∧
    (0 ≤ RealEngine.overall_score today u1 u2 ∧
      RealEngine.overall_score today u1 u2 ≤ 1) ∧
    (0 ≤ q ∧ q ≤ 1) :=
  ⟨RealEngine.name_similarity_unit u1 u2,
   RealEngine.location_proximity_unit u1 u2,
   RealEngine.demographic_match_unit today u1 u2,
   RealEngine.interests_overlap_unit u1 u2,
   RealEngine.temporal_proximity_unit u1 u2,
   ProductionService.family_relationship_unit u1 u2,
   RealEngine.overall_score_unit today u1 u2,
   Ensemble.ensemble_score_unit scores w hs hw q hq⟩

theorem C1_witness :
    (∀ p ∈ [(("nlp" : String), (1 : ℚ))], 0 ≤ p.2 ∧ p.2 ≤ 1) ∧
    ((0:ℚ) ≤ 1 ∧ (0:ℚ) ≤ 1 ∧ (0:ℚ) ≤ 1 ∧ (0:ℚ) ≤ 1) ∧
    Ensemble.ensemble_score [("nlp", 1)] ⟨1, 1, 1, 1⟩ = some 1 ∧
    ((0 ≤ (RealEngine.calculate_name_similarity userT userB).1 ∧
       (RealEngine.calculate_name_similarity userT userB).1 ≤ 1) ∧
     (0 ≤ (RealEngine.calculate_location_proximity userT userB).1 ∧
       (RealEngine.calculate_location_proximity userT userB).1 ≤ 1) ∧
     (0 ≤ (RealEngine.calculate_demographic_match today0 userT userB).1 ∧
       (RealEngine.calculate_demographic_match today0 userT userB).1 ≤ 1) ∧
     (0 ≤ (RealEngine.calculate_interests_overlap userT userB).1 ∧
       (RealEngine.calculate_interests_overlap userT userB).1 ≤ 1) ∧
     (0 ≤ (RealEngine.calculate_temporal_proximity userT userB).1 ∧
       (RealEngine.calculate_temporal_proximity userT userB).1 ≤ 1) ∧
     (0 ≤ (ProductionService.analyze_family_relationship userT userB).score ∧
       (ProductionService.analyze_family_relationship userT userB).score ≤ 1) ∧
     (0 ≤ RealEngine.overall_score today0 userT userB ∧
       RealEngine.overall_score today0 userT userB ≤ 1) ∧
     (0 ≤ (1:ℚ) ∧ (1:ℚ) ≤ 1)) :=
  ⟨by simp, by simp,
   ensemble_score_nlp_one,
   C1_subscores_and_combined_in_unit_interval today0 userT userB [("nlp", 1)] ⟨1, 1, 1, 1⟩ 1
     (by simp) (by simp) ensemble_score_nlp_one⟩
